import Mathlib

/-!
Verification of the command-intent resolution and presentation-state core of
the bot_arti repository: a shallow embedding of `src/core/command_router.py`,
`src/core/presentation_state.py` and `src/slides/keynote_controller.py`.

The external world (the Keynote application reached through `osascript`, the
Tavily search service and the OpenAI completion service) is modelled by a
state record `S` carrying the observable backend facts plus oracles for
script failures and service answers.  Every AppleScript invocation made by
`run_applescript` is recorded in a trace (newest call first), which lets the
theorems speak about which backend capabilities a code path invokes.
-/

namespace BotArti

/-!
The Python string operations the code relies on (`in`, `split`, `strip`,
`lower`, `int(...)`, `str.join`) are defined here by structural recursion
over the character list, so that every theorem witness can be evaluated
inside the kernel (the corresponding `String` library functions are
compiled externs that do not reduce). -/

/-- Whether `needle` occurs in `hay` (character-list form). -/
def containsSub (needle : List Char) : List Char → Bool
  | [] => needle.isEmpty
  | c :: cs => needle.isPrefixOf (c :: cs) || containsSub needle cs

/-- Python's `needle in hay` substring test (`"" in s` is `True`). -/
def pyIn (needle hay : String) : Bool :=
  needle == "" || containsSub needle.data hay.data

/-- Left-strip of whitespace characters. -/
def stripL : List Char → List Char
  | [] => []
  | c :: cs => if c.isWhitespace then stripL cs else c :: cs

/-- Python's `str.strip()`. -/
def pyStrip (t : String) : String :=
  String.mk ((stripL (stripL t.data).reverse).reverse)

/-- Python's `str.lower()` (ASCII; the code only lower-cases ASCII words
such as `"true"`). -/
def pyLower (t : String) : String :=
  String.mk (t.data.map Char.toLower)

/-- Split off everything before/after the first occurrence of `sep`. -/
def splitFirst (sep : List Char) : List Char → Option (List Char × List Char)
  | [] => none
  | c :: cs =>
    if sep.isPrefixOf (c :: cs) then some ([], (c :: cs).drop sep.length)
    else
      match splitFirst sep cs with
      | some (b, a) => some (c :: b, a)
      | none => none

/-- Fuel-driven splitting on every occurrence of `sep` (the fuel
`length + 1` always suffices for a non-empty separator). -/
def splitFuel (sep : List Char) : Nat → List Char → List (List Char)
  | 0, l => [l]
  | fuel + 1, l =>
    match splitFirst sep l with
    | none => [l]
    | some (b, a) => b :: splitFuel sep fuel a

/-- Python's `str.split(sep)` with a non-empty separator. -/
def pySplit (t sep : String) : List String :=
  if sep == "" then [t]
  else (splitFuel sep.data (t.data.length + 1) t.data).map String.mk

/-- Joining with a separator (`sep.join(parts)`). -/
def joinWith (sep : String) : List String → String
  | [] => ""
  | [x] => x
  | x :: xs => x ++ sep ++ joinWith sep xs

/-- Digit-list value, most significant first. -/
def digitsToNat : List Char → Nat → Nat
  | [], acc => acc
  | c :: cs, acc => digitsToNat cs (acc * 10 + (c.toNat - '0'.toNat))

/-- All-digit parse of a character list. -/
def pyDigits? (l : List Char) : Option Nat :=
  if l ≠ [] ∧ l.all (fun c => c.isDigit) then some (digitsToNat l 0) else none

/-- Python's `int(text)` on a decimal string, `none` when `int` would raise
`ValueError`.  (Only an optional sign followed by digits is accepted; the
strings fed to `int` by this code are produced by AppleScript number
coercion or by `\d+` matches, so the exotic `int` forms never occur.) -/
def pyInt? (t : String) : Option Int :=
  match (pyStrip t).data with
  | '-' :: rest => (pyDigits? rest).map (fun n => -(n : Int))
  | '+' :: rest => (pyDigits? rest).map (fun n => (n : Int))
  | u => (pyDigits? u).map (fun n => (n : Int))

/-- Python rendering of an optional string inside an f-string:
`None` prints as `"None"`. -/
def pyStrOpt : Option String → String
  | none => "None"
  | some t => t

/-- Python `str(bool)` lower-cased as AppleScript prints booleans. -/
def boolStr (b : Bool) : String := if b then "true" else "false"

/-- `PresentationState` from `src/core/presentation_state.py`. -/
inductive PState
  | NO_KEYNOTE
  | NO_PRESENTATION
  | READY
  | PLAYING
  | PAUSED
deriving DecidableEq, Repr

/-- The `.value` attribute of each `PresentationState` member. -/
def PState.value : PState → String
  | .NO_KEYNOTE => "no_keynote"
  | .NO_PRESENTATION => "no_presentation"
  | .READY => "ready"
  | .PLAYING => "playing"
  | .PAUSED => "paused"

/-- The distinct AppleScript programs that `src/slides/keynote_controller.py`
passes to `run_applescript`, one constructor per script text. -/
inductive Call
  | existsProcess        -- System Events: exists process "Keynote"
  | activate             -- tell application "Keynote" to activate
  | existsDoc            -- exists document 1
  | showNext             -- show next
  | showPrev             -- show previous
  | startDoc             -- start front document
  | stopShow             -- stop the slideshow
  | playingWord          -- pause_presentation's query, returns "playing"/"paused"
  | playingBool          -- is_presentation_playing's query, returns "true"/"false"
  | pauseShow            -- pause slideshow
  | resumeShow           -- resume slideshow
  | statusDoc            -- get_presentation_status's document query
  | slideTextQ           -- get_current_slide_text's query
  | presInfo             -- _get_current_presentation_info's query
  | showSlide (n : Int)  -- show slide n of document 1
  | allSlides            -- _get_all_slides_content's query
deriving DecidableEq, Repr

/-- One item of a Tavily search result list. -/
structure TavilyItem where
  title : String
  url : String
  content : String
deriving DecidableEq, Repr

/-- Outcome of `TavilyAPI.search` (src/core/tavily_search.py): the method
catches every exception, returning either a failure record with an `error`
string or a success record with `content` (the answer) and `results`. -/
inductive TavilyRes
  | fail (error : String)
  | ok (content : String) (results : List TavilyItem)
deriving DecidableEq, Repr

/-- The `data` sub-dictionary of `get_presentation_status`'s result. -/
structure StatusData where
  document_name : String
  is_playing : Bool
  current_slide : Int
  total_slides : Int
deriving DecidableEq, Repr

/-- The parsed record `_get_current_presentation_info` returns
(`docName` / `slideCount` / `currentSlide`). -/
structure PresInfo where
  docName : String
  slideCount : Nat
  currentSlide : Nat
deriving DecidableEq, Repr

/-- The result dictionaries the controller functions return
(`{"success": ..., "message": ..., "text_to_speak": ..., ...}`);
absent keys are `none` / `false`. -/
structure ExecResult where
  success : Bool
  message : String
  text_to_speak : Option String := none
  rate : Option Rat := none
  data : Option StatusData := none
  question : Option String := none
  slide_context : Option String := none
  needs_ai_processing : Bool := false
deriving DecidableEq, Repr

/-- Python exceptions that the embedded code can raise. -/
inductive PyErr
  | typeError
  | valueError (what : String)
  | zeroDivisionError
deriving DecidableEq, Repr

/-- The whole mutable world: backend facts about Keynote, oracles for script
failures and for the external services, the AppleScript call trace, the two
module-level buffers of `keynote_controller.py`, and the fields of the
`PresentationContext` singleton. -/
structure S where
  /-- whether the Keynote process exists -/
  keynoteRunning : Bool := false
  /-- whether `document 1` exists -/
  docOpen : Bool := false
  /-- the `playing` property of Keynote -/
  playing : Bool := false
  /-- name of `document 1` -/
  docName : String := ""
  /-- count of slides of `document 1` -/
  totalSlides : Nat := 0
  /-- slide number of the current slide -/
  currentSlide : Nat := 0
  /-- stripped stdout of the current-slide-text script -/
  slideText : String := ""
  /-- stripped stdout of the all-slides-content script -/
  allSlidesRaw : String := ""
  /-- how many AppleScript calls have been issued so far -/
  okCnt : Nat := 0
  /-- failure oracle: whether the n-th `osascript` invocation succeeds -/
  ok : Nat → Bool
  /-- stderr text of the n-th invocation when it fails -/
  errRaw : Nat → String := fun _ => ""
  /-- oracle for `TavilyAPI.search` -/
  tavily : String → TavilyRes := fun _ => .fail ""
  /-- oracle for `QuestionHandler.generate_answer` (question, search data) -/
  qaAnswer : String → TavilyRes → String := fun _ _ => ""
  /-- oracle for the GPT call of `generate_summary`, `.error` = exception -/
  summaryLLM : String → Except String String := fun _ => .error ""
  /-- oracle for `random.choice` in `format_search_results` -/
  randIdx : Nat := 0
  /-- newest-first log of the AppleScript programs invoked -/
  trace : List Call := []
  /-- module global `_current_slide_text` -/
  currentSlideTextBuf : Option String := none
  /-- module global `_last_spoken_text` -/
  lastSpokenTextBuf : Option String := none
  /-- `PresentationContext.state` -/
  ctxState : PState := .NO_KEYNOTE
  /-- `PresentationContext.current_slide` -/
  ctxCurrentSlide : Int := 0
  /-- `PresentationContext.total_slides` -/
  ctxTotalSlides : Int := 0
  /-- `PresentationContext.presentation_name` -/
  ctxPresentationName : Option String := none

/-- The stdout (after `strip()`) a successful AppleScript program produces,
as a function of the current world. -/
def callOut (s : S) : Call → String
  | .existsProcess => boolStr s.keynoteRunning
  | .activate => ""
  | .existsDoc => boolStr s.docOpen
  | .showNext => ""
  | .showPrev => ""
  | .startDoc => ""
  | .stopShow => ""
  | .playingWord => if s.playing then "playing" else "paused"
  | .playingBool => boolStr s.playing
  | .pauseShow => ""
  | .resumeShow => ""
  | .statusDoc =>
      if s.docOpen then
        s.docName ++ "|" ++ boolStr s.playing ++ "|"
          ++ toString (if s.playing then (s.currentSlide : Int) else 0) ++ "|"
          ++ toString (if s.playing then (s.totalSlides : Int) else 0)
      else "no_document"
  | .slideTextQ => s.slideText
  | .presInfo => ""
  | .showSlide _ => ""
  | .allSlides => s.allSlidesRaw

/-- The effect a successful AppleScript program has on the world. -/
def callEffect (s : S) : Call → S
  | .activate => { s with keynoteRunning := true }
  | .showNext => { s with currentSlide := min (s.currentSlide + 1) s.totalSlides }
  | .showPrev => { s with currentSlide := s.currentSlide - 1 }
  | .startDoc => { s with playing := true }
  | .stopShow => { s with playing := false }
  | .pauseShow => { s with playing := false }
  | .resumeShow => { s with playing := true }
  | .showSlide n => { s with currentSlide := n.toNat }
  | _ => s

/-- The `error_map` of known AppleScript error texts in `run_applescript`. -/
def ERROR_MAP : List (String × String) :=
  [("Документ уже воспроизводится", "Презентация уже запущена."),
   ("Document is already playing", "Презентация уже запущена."),
   ("No document is open", "Нет открытой презентации."),
   ("No such slide", "Такого слайда не существует."),
   ("execution error", "Ошибка выполнения команды в Keynote.")]

/-- Error-message mapping of `run_applescript`: the first known error text
contained in stderr wins, otherwise the generic message. -/
def mapScriptError (err : String) : String :=
  match ERROR_MAP.find? (fun kv => pyIn kv.1 err) with
  | some kv => kv.2
  | none => "Ошибка при работе с Keynote. Проверьте статус презентации."

/-- `run_applescript` (src/slides/keynote_controller.py): runs one script,
returning `(success, stripped stdout / user-facing error message)`.  Every
invocation is logged in the trace and consumes one entry of the failure
oracle; a failed invocation leaves the Keynote world unchanged.  (The
`except` branch around the subprocess spawn produces a `(False, message)`
pair of the same shape and is folded into the failure oracle.) -/
def run_applescript (c : Call) (s : S) : (Bool × String) × S :=
  let n := s.okCnt
  let s1 : S := { s with okCnt := n + 1, trace := c :: s.trace }
  if s.ok n then ((true, callOut s c), callEffect s1 c)
  else ((false, mapScriptError (s.errRaw n)), s1)

/-! ## src/slides/keynote_controller.py -/

/-- `is_keynote_running`. -/
def is_keynote_running (s : S) : Bool × S :=
  match run_applescript .existsProcess s with
  | ((success, result), s) => (success && pyLower result == "true", s)

/-- `ensure_keynote_running`: launch Keynote when it is not running, then
re-check (the `asyncio.sleep(2)` has no observable effect in this model). -/
def ensure_keynote_running (s : S) : Bool × S :=
  match is_keynote_running s with
  | (true, s) => (true, s)
  | (false, s) =>
    match run_applescript .activate s with
    | ((true, _), s) => is_keynote_running s
    | ((false, _), s) => (false, s)

/-- `is_presentation_active`. -/
def is_presentation_active (s : S) : Bool × S :=
  match run_applescript .existsDoc s with
  | ((success, result), s) => (success && pyLower result == "true", s)

/-- `is_presentation_playing`. -/
def is_presentation_playing (s : S) : Bool × S :=
  match is_keynote_running s with
  | (false, s) => (false, s)
  | (true, s) =>
    match run_applescript .playingBool s with
    | ((success, result), s) => (success && pyLower result == "true", s)

/-- `next_slide`. -/
def next_slide (s : S) : ExecResult × S :=
  match ensure_keynote_running s with
  | (false, s) => ({ success := false, message := "Keynote не запущен или не может быть запущен" }, s)
  | (true, s) =>
    match is_presentation_active s with
    | (false, s) => ({ success := false, message := "Нет активной презентации в Keynote" }, s)
    | (true, s) =>
      match run_applescript .showNext s with
      | ((true, _), s) => ({ success := true, message := "Переход к следующему слайду выполнен" }, s)
      | ((false, message), s) =>
        ({ success := false, message := "Ошибка перехода к следующему слайду: " ++ message }, s)

/-- `previous_slide`. -/
def previous_slide (s : S) : ExecResult × S :=
  match ensure_keynote_running s with
  | (false, s) => ({ success := false, message := "Keynote не запущен или не может быть запущен" }, s)
  | (true, s) =>
    match is_presentation_active s with
    | (false, s) => ({ success := false, message := "Нет активной презентации в Keynote" }, s)
    | (true, s) =>
      match run_applescript .showPrev s with
      | ((true, _), s) => ({ success := true, message := "Переход к предыдущему слайду выполнен" }, s)
      | ((false, message), s) =>
        ({ success := false, message := "Ошибка перехода к предыдущему слайду: " ++ message }, s)

/-- `start_presentation`. -/
def start_presentation (s : S) : ExecResult × S :=
  match ensure_keynote_running s with
  | (false, s) => ({ success := false, message := "Keynote не запущен или не может быть запущен" }, s)
  | (true, s) =>
    match run_applescript .startDoc s with
    | ((true, _), s) => ({ success := true, message := "Презентация запущена" }, s)
    | ((false, message), s) =>
      ({ success := false, message := "Ошибка запуска презентации: " ++ message }, s)

/-- `end_presentation`. -/
def end_presentation (s : S) : ExecResult × S :=
  match is_keynote_running s with
  | (false, s) => ({ success := false, message := "Keynote не запущен" }, s)
  | (true, s) =>
    match run_applescript .stopShow s with
    | ((true, _), s) => ({ success := true, message := "Презентация остановлена" }, s)
    | ((false, message), s) =>
      ({ success := false, message := "Ошибка остановки презентации: " ++ message }, s)

/-- `pause_presentation`: queries whether the show is playing, then toggles. -/
def pause_presentation (s : S) : ExecResult × S :=
  match is_keynote_running s with
  | (false, s) => ({ success := false, message := "Keynote не запущен" }, s)
  | (true, s) =>
    match run_applescript .playingWord s with
    | ((false, _), s) => ({ success := false, message := "Не удалось определить статус презентации" }, s)
    | ((true, status), s) =>
      let toggle := if status == "playing" then Call.pauseShow else Call.resumeShow
      let word := if status == "playing" then "остановлена" else "возобновлена"
      match run_applescript toggle s with
      | ((true, _), s) => ({ success := true, message := "Презентация " ++ word }, s)
      | ((false, message), s) =>
        ({ success := false, message := "Ошибка при изменении статуса презентации: " ++ message }, s)

/-- `get_presentation_status`: the document query yields
`name|playing|current|total` (current/total are 0 while not playing) or
`no_document`; a malformed reply makes the `except` branch fire.  The
embedded `ValueError` text stands in for CPython's exact wording. -/
def get_presentation_status (s : S) : ExecResult × S :=
  match is_keynote_running s with
  | (false, s) => ({ success := false, message := "Keynote не запущен" }, s)
  | (true, s) =>
    match run_applescript .statusDoc s with
    | ((false, result), s) => ({ success := false, message := "Ошибка получения статуса: " ++ result }, s)
    | ((true, result), s) =>
      if result == "no_document" then
        ({ success := true, message := "Нет открытых презентаций в Keynote" }, s)
      else
        match pySplit result "|" with
        | [doc_name, playingS, currentS, totalS] =>
          match pyInt? currentS, pyInt? totalS with
          | some current_slide, some total_slides =>
            let is_playing := pyLower playingS == "true"
            let status_text :=
              "Презентация: " ++ doc_name ++ "\n"
                ++ "Статус: " ++ (if is_playing then "Воспроизводится" else "Остановлена") ++ "\n"
                ++ (if current_slide > 0 then
                      "Слайд: " ++ toString current_slide ++ " из " ++ toString total_slides
                    else "")
            ({ success := true, message := status_text,
               data := some { document_name := doc_name, is_playing := is_playing,
                              current_slide := current_slide, total_slides := total_slides } }, s)
          | _, _ => ({ success := false, message := "Ошибка обработки статуса презентации: ValueError" }, s)
        | _ => ({ success := false, message := "Ошибка обработки статуса презентации: ValueError" }, s)

/-- `get_current_slide_text`: on success stores the fetched text in the
module buffer `_current_slide_text`. -/
def get_current_slide_text (s : S) : (Bool × String) × S :=
  match is_keynote_running s with
  | (false, s) => ((false, "Keynote не запущен"), s)
  | (true, s) =>
    match is_presentation_active s with
    | (false, s) => ((false, "Нет активной презентации"), s)
    | (true, s) =>
      match run_applescript .slideTextQ s with
      | ((true, result), s) => ((true, result), { s with currentSlideTextBuf := some result })
      | ((false, result), s) => ((false, "Ошибка получения текста слайда: " ++ result), s)

/-- The paragraph filter of `speak_next_block`:
`[p for p in slide_text.split("\n") if p.strip()]`. -/
def paragraphsOf (t : String) : List String :=
  (pySplit t "\n").filter (fun p => pyStrip p ≠ "")

/-- `speak_next_block(rate=1.0)`: fetches the current slide text and speaks
only its first non-empty paragraph (the title).  It never touches the
`_last_spoken_text` buffer. -/
def speak_next_block (rate : Rat) (s : S) : ExecResult × S :=
  match get_current_slide_text s with
  | ((false, msg), s) => ({ success := false, message := msg }, s)
  | ((true, slide_text), s) =>
    if slide_text == "" || pyStrip slide_text == "" then
      ({ success := false, message := "На текущем слайде нет текста для озвучивания" }, s)
    else
      match paragraphsOf slide_text with
      | [] => ({ success := false, message := "На текущем слайде нет текста для озвучивания" }, s)
      | title_text :: _ =>
        ({ success := true, message := "Озвучиваю заголовок: " ++ title_text,
           text_to_speak := some title_text, rate := some rate }, s)

/-- `repeat_last_block`: with `_last_spoken_text` unset it delegates to
`speak_next_block()` at the default rate 1.0. -/
def repeat_last_block (s : S) : ExecResult × S :=
  match s.lastSpokenTextBuf with
  | none => speak_next_block 1 s
  | some t =>
    ({ success := true, message := "Повторяю: " ++ t, text_to_speak := some t }, s)

/-- `handle_question(question)` — the second definition in the file, which
shadows the first at module load.  `QuestionHandler.search_and_process_question`
catches every exception internally, so it always yields
`{"success": True, "answer": ...}`, and `format_answer` then returns the
answer text itself. -/
def handle_question (question : String) (s : S) : ExecResult × S :=
  let search_results := s.tavily question
  let answer := s.qaAnswer question search_results
  ({ success := true, message := answer, text_to_speak := some answer }, s)

/-- The `intro_phrases` list of `TavilyAPI.format_search_results`. -/
def intro_phrases (query : String) : List String :=
  ["Так, я поискал информацию о \x27" ++ query ++ "\x27. Вот что нашел.",
   "Отлично! По запросу \x27" ++ query ++ "\x27 я нашел интересную информацию.",
   "По вашему вопросу о \x27" ++ query ++ "\x27 есть следующая информация.",
   "Давайте разберемся с \x27" ++ query ++ "\x27. Я нашел следующее."]

/-- The enumerated source listing (`for i, result in enumerate(results[:3], 1)`). -/
def renderResults : Nat → List TavilyItem → String
  | _, [] => ""
  | i, r :: rest =>
    toString i ++ ". " ++ r.title ++ "\n   " ++ r.url ++ "\n\n" ++ renderResults (i + 1) rest

/-- `TavilyAPI.format_search_results` (src/core/tavily_search.py);
`random.choice` over the four intro phrases is the `randIdx` oracle. -/
def format_search_results (randIdx : Nat) (query : String) (res : TavilyRes) : String :=
  match res with
  | .fail error => "К сожалению, не получилось найти информацию. " ++ error
  | .ok content results =>
    let intro := (intro_phrases query).getD (randIdx % 4) ""
    let base := if content ≠ "" then intro ++ "\n\n" ++ content ++ "\n\n" else intro ++ "\n\n"
    if results ≠ [] then
      base ++ "Я также нашел несколько полезных источников:\n" ++ renderResults 1 (results.take 3)
    else
      base ++ "Хотя конкретных источников я не нашел, надеюсь, эта информация вам поможет."

/-- `search_web(query)`. -/
def search_web (query : String) (s : S) : ExecResult × S :=
  let search_results := s.tavily query
  let formatted := format_search_results s.randIdx query search_results
  match search_results with
  | .ok content results =>
    let text_to_speak :=
      if content ≠ "" then content
      else match results with
        | r :: _ => r.content
        | [] => ""
    ({ success := true, message := formatted, text_to_speak := some text_to_speak }, s)
  | .fail _ => ({ success := false, message := formatted }, s)

/-- `_get_current_presentation_info`: a failed script or unparseable JSON
both end in the empty dictionary, modelled as `none`. -/
def getCurrentPresentationInfo (s : S) : Option PresInfo × S :=
  match run_applescript .presInfo s with
  | ((true, _), s) =>
    if s.docOpen then
      (some { docName := s.docName, slideCount := s.totalSlides, currentSlide := s.currentSlide }, s)
    else (none, s)
  | ((false, _), s) => (none, s)

/-- `generate_summary`: gathers presentation info and the current slide
text, builds the GPT prompt and asks the completion oracle; an exception
from the client is converted into a failure result. -/
def generate_summary (s : S) : ExecResult × S :=
  match is_keynote_running s with
  | (false, s) => ({ success := false, message := "Keynote не запущен" }, s)
  | (true, s) =>
    match is_presentation_active s with
    | (false, s) => ({ success := false, message := "Нет активной презентации" }, s)
    | (true, s) =>
      match getCurrentPresentationInfo s with
      | (info, s) =>
        let presentation_name := match info with | some i => i.docName | none => "Без названия"
        let slide_count : Nat := match info with | some i => i.slideCount | none => 0
        let current_slide : Nat := match info with | some i => i.currentSlide | none => 0
        match get_current_slide_text s with
        | ((gotText, current_text), s) =>
          let user_prompt :=
            "Подведи промежуточные итоги презентации со следующей информацией:\n"
              ++ "- Название презентации: " ++ presentation_name ++ "\n"
              ++ "- Всего слайдов: " ++ toString slide_count ++ "\n"
              ++ "- Текущий слайд: " ++ toString current_slide ++ " из " ++ toString slide_count ++ "\n"
              ++ "- Текст текущего слайда: " ++ (if gotText then current_text else "Недоступен")
          match s.summaryLLM user_prompt with
          | .ok summary =>
            ({ success := true,
               message := "📊 Резюме презентации \"" ++ presentation_name ++ "\":\n\n" ++ summary,
               text_to_speak := some summary }, s)
          | .error e =>
            ({ success := false, message := "Не удалось сгенерировать резюме: " ++ e }, s)

/-- `goto_slide_by_number(slide_number)`: fetches the slide count, range
checks, and only then issues the `show slide` navigation script. -/
def goto_slide_by_number (slide_number : Int) (s : S) : ExecResult × S :=
  match getCurrentPresentationInfo s with
  | (none, s) => ({ success := false, message := "Не удалось получить информацию о презентации" }, s)
  | (some info, s) =>
    let total_slides : Int := info.slideCount
    if slide_number < 1 || slide_number > total_slides then
      ({ success := false,
         message := "Слайд " ++ toString slide_number ++ " не существует. Всего слайдов: "
           ++ toString total_slides }, s)
    else
      match run_applescript (.showSlide slide_number) s with
      | ((true, _), s) => ({ success := true, message := "Переход к слайду " ++ toString slide_number }, s)
      | ((false, message), s) =>
        ({ success := false,
           message := "Ошибка перехода к слайду " ++ toString slide_number ++ ": " ++ message }, s)

/-- Python-dict insertion (`slides[num] = text`): an existing key keeps its
position and gets the new value. -/
def pyDictInsert (d : List (String × String)) (k v : String) : List (String × String) :=
  if d.any (fun kv => kv.1 == k) then d.map (fun kv => if kv.1 == k then (k, v) else kv)
  else d ++ [(k, v)]

/-- `_get_all_slides_content`: splits the script output on `", "` and each
line at its first `":"` into (slide number, text). -/
def getAllSlidesContent (s : S) : List (String × String) × S :=
  match run_applescript .allSlides s with
  | ((success, result), s) =>
    if !success || result == "" then ([], s)
    else
      let slides := (pySplit result ", ").foldl
        (fun acc line =>
          if pyIn ":" line then
            match pySplit line ":" with
            | num :: rest => pyDictInsert acc (pyStrip num) (pyStrip (joinWith ":" rest))
            | [] => acc
          else acc) []
      (slides, s)

/-- The best-match fold of `goto_slide_by_content`: containment-based
scoring `len(content)/len(slide_text)*100` (exact rational arithmetic
standing in for Python floats; no claim depends on tie behaviour), raising
`ZeroDivisionError` on an empty matched slide text. -/
def bestMatchFold (ct : String) :
    List (String × String) → Option String → Rat → Except PyErr (Option String)
  | [], best, _ => .ok best
  | (num, text) :: rest, best, bestScore =>
    if pyIn (pyLower ct) (pyLower text) then
      if text.length = 0 then .error .zeroDivisionError
      else
        let score : Rat := (ct.length : Rat) / (text.length : Rat) * 100
        if score > bestScore then bestMatchFold ct rest (some num) score
        else bestMatchFold ct rest best bestScore
    else bestMatchFold ct rest best bestScore

/-- `goto_slide_by_content(content_text)`: `int(best_match)` raises
`ValueError` on a non-numeric key, so the function returns `Except`. -/
def goto_slide_by_content (content_text : String) (s : S) : Except PyErr ExecResult × S :=
  match getAllSlidesContent s with
  | (all_slides, s) =>
    if all_slides = [] then
      (.ok { success := false, message := "Не удалось получить содержимое слайдов" }, s)
    else
      match bestMatchFold content_text all_slides none 0 with
      | .error e => (.error e, s)
      | .ok best_match =>
        match best_match with
        | some k =>
          if k ≠ "" then
            match pyInt? k with
            | some n =>
              match goto_slide_by_number n s with
              | (r, s) => (.ok r, s)
            | none => (.error (.valueError k), s)
          else
            (.ok { success := false,
                   message := "Слайд с текстом \x27" ++ content_text ++ "\x27 не найден" }, s)
        | none =>
          (.ok { success := false,
                 message := "Слайд с текстом \x27" ++ content_text ++ "\x27 не найден" }, s)

/-- `goto_slide(slide_number=None, slide_title=None)`: ensures Keynote is
up and a document is open, starts the presentation when it is not playing,
and only then dispatches by number or by content. -/
def goto_slide (slide_number : Option Int) (slide_title : Option String) (s : S) :
    Except PyErr ExecResult × S :=
  match ensure_keynote_running s with
  | (false, s) => (.ok { success := false, message := "Keynote не запущен или не может быть запущен" }, s)
  | (true, s) =>
    match is_presentation_active s with
    | (false, s) => (.ok { success := false, message := "Нет активной презентации в Keynote" }, s)
    | (true, s) =>
      let dispatch : S → Except PyErr ExecResult × S := fun s =>
        match slide_number with
        | some n =>
          match goto_slide_by_number n s with
          | (r, s) => (.ok r, s)
        | none =>
          match slide_title with
          | some t => goto_slide_by_content t s
          | none => (.ok { success := false, message := "Укажите номер слайда или текст для поиска" }, s)
      match is_presentation_playing s with
      | (true, s) => dispatch s
      | (false, s) =>
        match start_presentation s with
        | (start_result, s) =>
          if !start_result.success then (.ok start_result, s)
          else dispatch s

/-! ## src/core/presentation_state.py -/

/-- `PresentationContext.update_state`: short-circuit state derivation.
Note the source: when the status call succeeds and carries a `data`
dictionary, `is_playing=False` yields `PAUSED` (not `READY`); `READY` is
reached only when the status succeeds without `data`; and a failed status
call leaves the previous state untouched (there is no `else`). -/
def update_state (s : S) : S :=
  match is_keynote_running s with
  | (false, s) => { s with ctxState := .NO_KEYNOTE }
  | (true, s) =>
    match is_presentation_active s with
    | (false, s) => { s with ctxState := .NO_PRESENTATION }
    | (true, s) =>
      match get_presentation_status s with
      | (status, s) =>
        if status.success then
          match status.data with
          | some d =>
            { s with ctxCurrentSlide := d.current_slide,
                     ctxTotalSlides := d.total_slides,
                     ctxPresentationName := some d.document_name,
                     ctxState := if d.is_playing then .PLAYING else .PAUSED }
          | none => { s with ctxState := .READY }
        else s

/-- `PresentationContext.get_status_message`. -/
def get_status_message (s : S) : String :=
  match s.ctxState with
  | .NO_KEYNOTE => "Keynote не запущен. Я запущу его для вас."
  | .NO_PRESENTATION => "Нет открытой презентации. Откройте презентацию в Keynote."
  | .READY => "Презентация \x27" ++ pyStrOpt s.ctxPresentationName ++ "\x27 готова к запуску."
  | .PLAYING =>
    "Презентация воспроизводится, слайд " ++ toString s.ctxCurrentSlide
      ++ " из " ++ toString s.ctxTotalSlides ++ "."
  | .PAUSED =>
    "Презентация на паузе, слайд " ++ toString s.ctxCurrentSlide
      ++ " из " ++ toString s.ctxTotalSlides ++ "."

/-- The `valid_actions` legality table of `validate_action`. -/
def valid_actions : PState → List String
  | .NO_KEYNOTE => ["start"]
  | .NO_PRESENTATION => ["status"]
  | .READY => ["start", "status", "next_slide", "previous_slide", "goto_slide"]
  | .PLAYING => ["next_slide", "previous_slide", "pause", "end_presentation", "status",
                 "goto_slide", "speak_next_block", "repeat_last_block"]
  | .PAUSED => ["resume", "next_slide", "previous_slide", "end_presentation", "status", "goto_slide"]

/-- The per-state guidance messages returned on an invalid action. -/
def invalid_messages (s : S) : PState → String
  | .NO_KEYNOTE => "Сначала нужно запустить Keynote. Скажите \x27запустить презентацию\x27."
  | .NO_PRESENTATION => "Откройте презентацию в Keynote перед использованием команд."
  | .READY =>
    "Презентация не запущена. Скажите \x27начать\x27 чтобы запустить \x27"
      ++ pyStrOpt s.ctxPresentationName ++ "\x27."
  | .PLAYING => "Эта команда недоступна при воспроизведении презентации."
  | .PAUSED => "Презентация на паузе. Скажите \x27продолжить\x27 для возобновления."

/-- Result of `validate_action`. -/
structure VRes where
  valid : Bool
  message : Option String
deriving DecidableEq, Repr

/-- `PresentationContext.validate_action(action)`: refreshes the state
first, then checks the legality table. -/
def validate_action (action : String) (s : S) : VRes × S :=
  let s := update_state s
  if (valid_actions s.ctxState).contains action then
    ({ valid := true, message := none }, s)
  else
    ({ valid := false, message := some (invalid_messages s s.ctxState) }, s)

/-! ## src/core/command_router.py -/

/-- `COMMAND_PATTERNS`: the regex table (pattern source text, confidence)
per action.  The table is data only: nothing in `command_router.py` ever
evaluates it — `identify_action` never reaches a pattern-matching step. -/
def COMMAND_PATTERNS : List (String × List (String × Rat)) :=
  [("next_slide",
    [("\\b(next|forward|следующий|вперед|далее)\\s+(slide|слайд)\\b", mkRat 95 100),
     ("\\b(next|forward|следующий|вперед|далее)\\b", mkRat 85 100),
     ("\\bслед(ующий)?\\s+слайд\\b", mkRat 95 100)]),
   ("previous_slide",
    [("\\b(previous|back|назад|предыдущий)\\s+(slide|слайд)\\b", mkRat 95 100),
     ("\\b(previous|back|назад|предыдущий)\\b", mkRat 85 100),
     ("\\bпред(ыдущий)?\\s+слайд\\b", mkRat 95 100)]),
   ("pause", [("\\b(pause|stop|пауза|стоп|остановить)\\b", mkRat 9 10)]),
   ("resume", [("\\b(continue|resume|продолжить|продолжай|возобновить)\\b", mkRat 9 10)]),
   ("start",
    [("\\b(start|begin|начать|запустить|начни)\\s+(presentation|презентацию|показ|семинар)\\b", mkRat 95 100),
     ("\\b(begin|start|начни семинар)\\b", mkRat 8 10)]),
   ("end_presentation",
    [("\\b(end|finish|закончить|завершить)\\s+(presentation|презентацию|показ)\\b", mkRat 95 100),
     ("\\b(end|finish|exit|quit|выход|выйти)\\b", mkRat 8 10)]),
   ("speak_next_block", [("\\b(говори|читай|озвучь|скажи)\\b", mkRat 9 10)]),
   ("repeat_last_block", [("\\b(повтори|повтор|еще раз)\\b", mkRat 9 10)]),
   ("handle_question",
    [("\\b(ответь|ответить)\\s+(на)?\\s*(вопрос|запрос)\\b", mkRat 95 100),
     ("\\b(поищи|найди|загугли|поиск)\\b", mkRat 9 10),
     ("\\b(что такое|кто такой|как|почему|зачем|когда)\\b", mkRat 85 100)]),
   ("search_web",
    [("\\b(поиск|найди|загугли|найти)\\s+(в)?\\s*(интернете|сети|онлайн)\\b", mkRat 95 100),
     ("\\b(посмотри|проверь)\\s+(информацию|данные)\\b", mkRat 9 10)]),
   ("generate_summary",
    [("\\b(резюме|резюмируй|подведи итоги|итоги)\\b", mkRat 9 10),
     ("\\b(сделай|создай)\\s+(резюме|отчет|выводы)\\b", mkRat 95 100),
     ("\\b(о чем|информация|содержание|расскажи)\\s+(презентация|презентации|доклад)\\b", mkRat 9 10)])]

/-- The names registered in `COMMAND_FUNCTIONS` (action → controller
function); note that `goto_slide` is NOT registered. -/
def COMMAND_FUNCTIONS : List String :=
  ["next_slide", "previous_slide", "pause", "resume", "start", "end_presentation", "status",
   "speak_next_block", "repeat_last_block", "handle_question", "search_web", "generate_summary"]

/-- The per-state hint sentence `identify_action` appends to its prompt. -/
def state_context_hint : PState → String
  | .NO_KEYNOTE => "\nПользователю следует сначала запустить Keynote."
  | .NO_PRESENTATION => "\nПользователю нужно открыть презентацию в Keynote."
  | .READY => "\nПрезентация готова, но не запущена. Пользователь может захотеть начать презентацию."
  | .PLAYING => "\nПрезентация воспроизводится. Пользователь может хотеть перейти между слайдами или поставить на паузу."
  | .PAUSED => "\nПрезентация на паузе. Пользователь может хотеть возобновить воспроизведение."

/-- The `context_prompt` string `identify_action` assembles. -/
def identify_action_context_prompt (current_state : Option PState) : String :=
  match current_state with
  | none => ""
  | some st =>
    "\nТекущее состояние презентации: " ++ st.value ++ "." ++ state_context_hint st

/-- The classification outcome shapes `identify_action` is documented to
return: a single `{action, confidence}` or a `multiple_actions` list. -/
inductive IntentData
  | single (action : String) (confidence : Rat)
  | multiple (actions : List (String × Rat))
deriving DecidableEq, Repr

/-- `identify_action(text, current_state)` as it stands in the source
(lines 317–385): the `try` body only assembles `context_prompt` and
`system_prompt` — the code that would call the model and return is elided
behind the comment `# Остальной код для использования OpenAI API...` — so
control falls off the end of the function and Python returns `None`.  The
`except` branch (which would call the undefined
`identify_action_with_regex`) is unreachable because pure string
construction raises nothing. -/
def identify_action (text : String) (current_state : Option PState) : Option IntentData :=
  let context_prompt := identify_action_context_prompt current_state
  let _system_prompt :=
    "Ты - интеллектуальный ассистент для управления презентациями.\n"
      ++ "Твоя задача - понять намерение пользователя из его сообщения,\n"
      ++ "даже если оно выражено косвенно или в свободной форме.\n" ++ context_prompt
      ++ "\nПользователь может запрашивать несколько действий в одном сообщении.\n"
      ++ "Основные действия: next_slide, previous_slide, pause, resume, start,\n"
      ++ "end_presentation, speak_next_block, repeat_last_block, handle_question,\n"
      ++ "search_web, generate_summary, status, goto_slide.\n"
      ++ "Не выбирай \"need_clarification\", если можешь сопоставить запрос с одним\n"
      ++ "из доступных действий."
  let _text := text
  none

/-- Values a parameter dictionary can hold. -/
inductive PVal
  | int (n : Int)
  | rat (q : Rat)
  | str (t : String)
deriving DecidableEq, Repr

/-- A `params` dictionary. -/
def Params := List (String × PVal)
deriving instance DecidableEq, Repr for Params

/-- Dictionary lookup on `Params`. -/
def lookupParam (ps : Params) (k : String) : Option PVal :=
  (List.find? (fun kv => kv.1 == k) ps).map (fun kv => kv.2)

/-- The pure text-processing helpers of `extract_question` /
`extract_parameters` (regular-expression searches over the raw text) as an
uninterpreted parameter: no claim depends on the extracted values, so the
theorems hold for every extractor. -/
structure TextFns where
  /-- `extract_question`: the question following the command phrasing, or the whole text -/
  extractQuestion : String → String
  /-- the `search_web` query patterns; `none` = no pattern matched (whole text is used) -/
  searchQuery : String → Option String
  /-- the `(\d+)\s+(слайд|slide)` slide-count match on the lower-cased text -/
  slideCount : String → Option Int
  /-- the `\b(медленн|slower|помедленнее)\b` match on the lower-cased text -/
  rateSlower : String → Bool
  /-- the `\b(быстр|faster|побыстрее)\b` match on the lower-cased text -/
  rateFaster : String → Bool

/-- `extract_parameters(text, action)` (src/core/command_router.py
lines 263–315), over the abstract regex helpers. -/
def extract_parameters (tf : TextFns) (text : String) (action : String) : Params :=
  if action == "handle_question" then
    [("question", .str (tf.extractQuestion text))]
  else if action == "search_web" then
    match tf.searchQuery text with
    | some q => [("query", .str q)]
    | none => [("query", .str text)]
  else if action == "next_slide" || action == "previous_slide" then
    match tf.slideCount (pyLower text) with
    | some n => [("slide_count", .int n)]
    | none => []
  else if action == "speak_next_block" || action == "repeat_last_block" then
    if tf.rateSlower (pyLower text) then [("rate", .rat (mkRat 8 10))]
    else if tf.rateFaster (pyLower text) then [("rate", .rat (mkRat 12 10))]
    else []
  else []

/-- The keyword parameters each registered controller function accepts
(`inspect.signature(fn).parameters`): only `speak_next_block`,
`handle_question` and `search_web` take any. -/
def fn_signature_params (action : String) : List String :=
  if action == "speak_next_block" then ["rate"]
  else if action == "handle_question" then ["question"]
  else if action == "search_web" then ["query"]
  else []

/-- The `supported_params` filtering: keep only the keys present in the
target function's signature. -/
def supported_params (action : String) (params : Params) : Params :=
  params.filter (fun kv => (fn_signature_params action).contains kv.1)

/-- `fn(**supported_params)`: dispatch through `COMMAND_FUNCTIONS`.
A missing required keyword (`question` / `query`) raises `TypeError`, as
does a name outside the table (unreachable: callers guard membership). -/
def call_command_fn (action : String) (ps : Params) (s : S) : Except PyErr ExecResult × S :=
  if action == "next_slide" then
    match next_slide s with | (r, s) => (.ok r, s)
  else if action == "previous_slide" then
    match previous_slide s with | (r, s) => (.ok r, s)
  else if action == "pause" then
    match pause_presentation s with | (r, s) => (.ok r, s)
  else if action == "resume" then
    match pause_presentation s with | (r, s) => (.ok r, s)
  else if action == "start" then
    match start_presentation s with | (r, s) => (.ok r, s)
  else if action == "end_presentation" then
    match end_presentation s with | (r, s) => (.ok r, s)
  else if action == "status" then
    match get_presentation_status s with | (r, s) => (.ok r, s)
  else if action == "speak_next_block" then
    let rate : Rat := match lookupParam ps "rate" with | some (.rat r) => r | _ => 1
    match speak_next_block rate s with | (r, s) => (.ok r, s)
  else if action == "repeat_last_block" then
    match repeat_last_block s with | (r, s) => (.ok r, s)
  else if action == "handle_question" then
    match lookupParam ps "question" with
    | some (.str q) => match handle_question q s with | (r, s) => (.ok r, s)
    | _ => (.error .typeError, s)
  else if action == "search_web" then
    match lookupParam ps "query" with
    | some (.str q) => match search_web q s with | (r, s) => (.ok r, s)
    | _ => (.error .typeError, s)
  else if action == "generate_summary" then
    match generate_summary s with | (r, s) => (.ok r, s)
  else (.error .typeError, s)

/-- One entry of the aggregated result list: the intent dictionary after
the loop body added `params` and `execution_result`. -/
structure ActionExecEntry where
  action : String
  confidence : Rat
  params : Params
  execution_result : Option ExecResult := none
deriving DecidableEq, Repr

/-- `pyErrText e`: the `str(e)` rendering interpolated into failure
messages (a stand-in for CPython's exact exception wording). -/
def pyErrText : PyErr → String
  | .typeError => "TypeError"
  | .valueError w => "invalid literal for int(): " ++ w
  | .zeroDivisionError => "division by zero"

/-- The body of the `for action_data in actions:` loop of
`handle_multiple_commands`, processing ONE intent against the current
state: `none` means the intent was skipped (low confidence /
unknown / need_clarification / invalid in the current state). -/
def process_one (tf : TextFns) (text : String) (a : String × Rat) (s : S) :
    Option ActionExecEntry × S :=
  let action := a.1
  let confidence := a.2
  if confidence < mkRat 1 2 || action == "unknown" || action == "need_clarification" then
    (none, s)
  else
    match validate_action action s with
    | (validation, s) =>
      if !validation.valid then (none, s)
      else
        let params := extract_parameters tf text action
        if COMMAND_FUNCTIONS.contains action then
          match call_command_fn action (supported_params action params) s with
          | (.ok er, s) =>
            let s := if er.success then update_state s else s
            (some { action := action, confidence := confidence, params := params,
                    execution_result := some er }, s)
          | (.error e, s) =>
            let er : ExecResult :=
              { success := false, message := "Ошибка при выполнении команды: " ++ pyErrText e }
            (some { action := action, confidence := confidence, params := params,
                    execution_result := some er }, s)
        else
          let er : ExecResult :=
            { success := false, message := "Неизвестная команда: " ++ action }
          (some { action := action, confidence := confidence, params := params,
                  execution_result := some er }, s)

/-- The full loop of `handle_multiple_commands` over the recognised
intents, written exactly as the source iterates (skip filters, per-intent
validation against the refreshed state, dispatch, per-intent exception
capture, state refresh on success, and appending to `results`). -/
def process_actions (tf : TextFns) (text : String) :
    List (String × Rat) → S → List ActionExecEntry × S
  | [], s => ([], s)
  | (action, confidence) :: rest, s =>
    if confidence < mkRat 1 2 || action == "unknown" || action == "need_clarification" then
      process_actions tf text rest s
    else
      match validate_action action s with
      | (validation, s) =>
        if !validation.valid then process_actions tf text rest s
        else
          let params := extract_parameters tf text action
          let step : ActionExecEntry × S :=
            if COMMAND_FUNCTIONS.contains action then
              match call_command_fn action (supported_params action params) s with
              | (.ok er, s) =>
                let s := if er.success then update_state s else s
                ({ action := action, confidence := confidence, params := params,
                   execution_result := some er }, s)
              | (.error e, s) =>
                let er : ExecResult :=
                  { success := false, message := "Ошибка при выполнении команды: " ++ pyErrText e }
                ({ action := action, confidence := confidence, params := params,
                   execution_result := some er }, s)
            else
              let er : ExecResult :=
                { success := false, message := "Неизвестная команда: " ++ action }
              ({ action := action, confidence := confidence, params := params,
                 execution_result := some er }, s)
          match step with
          | (entry, s) =>
            match process_actions tf text rest s with
            | (results, s) => (entry :: results, s)

/-- The shapes `handle_command` can return. -/
inductive TurnResult
  | clarification (confidence : Rat) (message : String)
  | single (e : ActionExecEntry)
  | multiple (actions : List ActionExecEntry)
deriving DecidableEq, Repr

/-- `handle_multiple_commands(text, actions_data, context)`: wraps the loop
into `{"multiple_actions": True, "actions": results}`. -/
def handle_multiple_commands (tf : TextFns) (text : String) (actions : List (String × Rat))
    (s : S) : TurnResult × S :=
  match process_actions tf text actions s with
  | (results, s) => (.multiple results, s)

/-- `handle_command(text)`: refreshes the context state, classifies, and
then evaluates `"multiple_actions" in result`.  Because `identify_action`
always returns `None`, that membership test raises
`TypeError: argument of type 'NoneType' is not iterable` on every input;
the remaining branches mirror the source but are unreachable. -/
def handle_command (tf : TextFns) (text : String) (s : S) : Except PyErr TurnResult × S :=
  let s := update_state s
  match identify_action text (some s.ctxState) with
  | none => (.error .typeError, s)
  | some intents =>
    match intents with
    | .multiple acts =>
      match handle_multiple_commands tf text acts s with
      | (r, s) => (.ok r, s)
    | .single action confidence =>
      if confidence < mkRat 1 2 || action == "unknown" || action == "need_clarification" then
        (.ok (.clarification confidence
          ("Я не уверен, какую команду выполнить. " ++ get_status_message s)), s)
      else
        match validate_action action s with
        | (validation, s) =>
          if !validation.valid then
            let er : ExecResult :=
              { success := false, message := (validation.message).getD "" }
            (.ok (.single { action := action, confidence := confidence, params := [],
                            execution_result := some er }), s)
          else
            let params := extract_parameters tf text action
            if COMMAND_FUNCTIONS.contains action then
              match call_command_fn action (supported_params action params) s with
              | (.ok er, s) =>
                let s := if er.success then update_state s else s
                (.ok (.single { action := action, confidence := confidence, params := params,
                                execution_result := some er }), s)
              | (.error e, s) =>
                let er : ExecResult :=
                  { success := false, message := "Ошибка при выполнении: " ++ pyErrText e }
                (.ok (.single { action := action, confidence := confidence, params := params,
                                execution_result := some er }), s)
            else
              let er : ExecResult :=
                { success := false, message := "Неизвестная команда: " ++ action }
              (.ok (.single { action := action, confidence := confidence, params := params,
                              execution_result := some er }), s)


/-! ## Relations and concrete states used by the theorems -/

def Frame (s t : S) : Prop :=
  t.totalSlides = s.totalSlides ∧ t.docOpen = s.docOpen ∧ t.slideText = s.slideText ∧
  t.allSlidesRaw = s.allSlidesRaw ∧ t.ok = s.ok ∧ t.errRaw = s.errRaw ∧
  t.tavily = s.tavily ∧ t.qaAnswer = s.qaAnswer ∧ t.summaryLLM = s.summaryLLM ∧
  t.randIdx = s.randIdx ∧ t.lastSpokenTextBuf = s.lastSpokenTextBuf ∧ t.docName = s.docName

def NoNewShow (s t : S) : Prop :=
  ∀ n, Call.showSlide n ∈ t.trace → Call.showSlide n ∈ s.trace

/-- `Tame s t`: the step from `s` to `t` preserved the frame and issued no
`show slide` navigation call. -/
def Tame (s t : S) : Prop := Frame s t ∧ NoNewShow s t



/-- Closed form of `speak_next_block`'s result when every backend script
succeeds: the early failures for a stopped Keynote / missing document, the
blank-slide failure, and otherwise the first non-empty paragraph. -/
def speakRes (rate : Rat) (s : S) : ExecResult :=
  if !s.keynoteRunning then { success := false, message := "Keynote не запущен" }
  else if !s.docOpen then { success := false, message := "Нет активной презентации" }
  else if s.slideText == "" || pyStrip s.slideText == "" then
    { success := false, message := "На текущем слайде нет текста для озвучивания" }
  else
    match paragraphsOf s.slideText with
    | [] => { success := false, message := "На текущем слайде нет текста для озвучивания" }
    | title_text :: _ =>
      { success := true, message := "Озвучиваю заголовок: " ++ title_text,
        text_to_speak := some title_text, rate := some rate }


/-- A healthy concrete world used by several witnesses: Keynote running, a
three-slide document "Demo" open and playing, current slide text with two
non-empty paragraphs, every script succeeding. -/
def sDemo : S :=
  { keynoteRunning := true, docOpen := true, playing := true, docName := "Demo",
    totalSlides := 3, currentSlide := 1, slideText := "Заголовок\nВторой абзац",
    ok := fun _ => true }

/-- The same world with playback stopped. -/
def sDemoStopped : S :=
  { sDemo with playing := false }

/-- A world with Keynote not running. -/
def sNoKeynote : S :=
  { ok := fun _ => true }

/-- A trivial instantiation of the abstract regex helpers. -/
def tfId : TextFns :=
  { extractQuestion := id, searchQuery := fun _ => none, slideCount := fun _ => none,
    rateSlower := fun _ => false, rateFaster := fun _ => false }


/-! ## Frame lemmas for the AppleScript layer

`Frame s t` collects the world components that no AppleScript effect ever
writes: they are preserved by every controller operation.  `NoNewShow s t`
says the trace gained no `show slide` navigation call. -/

theorem Frame.refl_frame (s : S) : Frame s s := by
  repeat' constructor

theorem Frame.trans_frame {s t u : S} (h1 : Frame s t) (h2 : Frame t u) : Frame s u := by
  obtain ⟨a1, b1, c1, d1, e1, f1, g1, h1', i1, j1, k1, l1⟩ := h1
  obtain ⟨a2, b2, c2, d2, e2, f2, g2, h2', i2, j2, k2, l2⟩ := h2
  exact ⟨a2.trans a1, b2.trans b1, c2.trans c1, d2.trans d1, e2.trans e1, f2.trans f1,
         g2.trans g1, h2'.trans h1', i2.trans i1, j2.trans j1, k2.trans k1, l2.trans l1⟩

theorem NoNewShow.refl_nns (s : S) : NoNewShow s s := fun _ h => h

theorem NoNewShow.trans_nns {s t u : S} (h1 : NoNewShow s t) (h2 : NoNewShow t u) :
    NoNewShow s u := fun n h => h1 n (h2 n h)

theorem callEffect_frame (s : S) (c : Call) : Frame s (callEffect s c) := by
  cases c <;> simp [callEffect, Frame]

theorem callEffect_trace (s : S) (c : Call) : (callEffect s c).trace = s.trace := by
  cases c <;> simp [callEffect]

theorem run_applescript_frame (c : Call) (s : S) : Frame s ((run_applescript c s).2) := by
  unfold run_applescript
  dsimp only
  split
  · exact Frame.trans_frame (by simp [Frame]) (callEffect_frame _ c)
  · simp [Frame]

theorem run_applescript_trace (c : Call) (s : S) :
    ((run_applescript c s).2).trace = c :: s.trace := by
  unfold run_applescript
  dsimp only
  split
  · rw [callEffect_trace]
  · rfl

theorem run_applescript_noNewShow (c : Call) (h : ∀ n, c ≠ .showSlide n) (s : S) :
    NoNewShow s ((run_applescript c s).2) := by
  intro n hmem
  rw [run_applescript_trace] at hmem
  rcases List.mem_cons.mp hmem with h' | h'
  · exact absurd h'.symm (h n)
  · exact h'

theorem Tame.refl_tame (s : S) : Tame s s := ⟨Frame.refl_frame s, NoNewShow.refl_nns s⟩

theorem Tame.trans_tame {s t u : S} (h1 : Tame s t) (h2 : Tame t u) : Tame s u :=
  ⟨h1.1.trans_frame h2.1, h1.2.trans_nns h2.2⟩

theorem tame_run (c : Call) (h : ∀ n, c ≠ .showSlide n) (s : S) :
    Tame s ((run_applescript c s).2) :=
  ⟨run_applescript_frame c s, run_applescript_noNewShow c h s⟩

theorem run_keynoteRunning (c : Call) (h : c ≠ .activate) (s : S) :
    ((run_applescript c s).2).keynoteRunning = s.keynoteRunning := by
  unfold run_applescript
  dsimp only
  split
  · cases c <;> simp_all [callEffect]
  · rfl

theorem run_okCnt (c : Call) (s : S) : ((run_applescript c s).2).okCnt = s.okCnt + 1 := by
  unfold run_applescript
  dsimp only
  split
  · cases c <;> simp [callEffect]
  · rfl

theorem tame_is_keynote_running (s : S) : Tame s ((is_keynote_running s).2) := by
  unfold is_keynote_running
  rcases h : run_applescript .existsProcess s with ⟨⟨b, r⟩, s1⟩
  have t := tame_run .existsProcess (by intro n h'; cases h') s
  rw [h] at t
  exact t

theorem tame_ensure_keynote_running (s : S) : Tame s ((ensure_keynote_running s).2) := by
  unfold ensure_keynote_running
  split
  · rename_i s1 h1
    have t1 := tame_is_keynote_running s
    rw [h1] at t1
    simpa using t1
  · rename_i s1 h1
    have t1 : Tame s s1 := by
      have t := tame_is_keynote_running s
      rw [h1] at t
      simpa using t
    split
    · rename_i r2 s2 h2
      have t2 : Tame s1 s2 := by
        have t := tame_run .activate (fun n h => by cases h) s1
        rw [h2] at t
        simpa using t
      exact (t1.trans_tame t2).trans_tame (tame_is_keynote_running s2)
    · rename_i r2 s2 h2
      have t2 : Tame s1 s2 := by
        have t := tame_run .activate (fun n h => by cases h) s1
        rw [h2] at t
        simpa using t
      simpa using t1.trans_tame t2

theorem tame_is_presentation_active (s : S) : Tame s ((is_presentation_active s).2) := by
  unfold is_presentation_active
  exact tame_run .existsDoc (fun n h => by cases h) s

theorem tame_is_presentation_playing (s : S) : Tame s ((is_presentation_playing s).2) := by
  unfold is_presentation_playing
  split
  · rename_i s1 h1
    have t := tame_is_keynote_running s
    rw [h1] at t
    simpa using t
  · rename_i s1 h1
    have t1 : Tame s s1 := by
      have t := tame_is_keynote_running s
      rw [h1] at t
      simpa using t
    split
    rename_i b2 r2 s2 h2
    have t2 : Tame s1 s2 := by
      have t := tame_run .playingBool (fun n h => by cases h) s1
      rw [h2] at t
      simpa using t
    simpa using t1.trans_tame t2

theorem tame_start_presentation (s : S) : Tame s ((start_presentation s).2) := by
  unfold start_presentation
  split
  · rename_i s1 h1
    have t := tame_ensure_keynote_running s
    rw [h1] at t
    simpa using t
  · rename_i s1 h1
    have t1 : Tame s s1 := by
      have t := tame_ensure_keynote_running s
      rw [h1] at t
      simpa using t
    split <;> rename_i r2 s2 h2 <;>
      have t2 : Tame s1 s2 := by
        have t := tame_run .startDoc (fun n h => by cases h) s1
        rw [h2] at t
        simpa using t
    · simpa using t1.trans_tame t2
    · simpa using t1.trans_tame t2

theorem tame_getInfo (s : S) : Tame s ((getCurrentPresentationInfo s).2) := by
  unfold getCurrentPresentationInfo
  split
  · rename_i r1 s1 h1
    have t1 : Tame s s1 := by
      have t := tame_run .presInfo (fun n h => by cases h) s
      rw [h1] at t
      simpa using t
    by_cases hd : s1.docOpen <;> simp only [hd] <;> simpa using t1
  · rename_i r1 s1 h1
    have t1 : Tame s s1 := by
      have t := tame_run .presInfo (fun n h => by cases h) s
      rw [h1] at t
      simpa using t
    simpa using t1

/-- Shape of the presentation info: either the fetch failed (`none`) or the
record reflects the world at the call (docName / slideCount / currentSlide). -/
theorem getInfo_shape (s : S) :
    (getCurrentPresentationInfo s).1 = none ∨
    (getCurrentPresentationInfo s).1 =
      some { docName := s.docName, slideCount := s.totalSlides, currentSlide := s.currentSlide } := by
  unfold getCurrentPresentationInfo
  split
  · rename_i r1 s1 h1
    have hf := run_applescript_frame .presInfo s
    rw [h1] at hf
    obtain ⟨hT, hD, -, -, -, -, -, -, -, -, -, hN⟩ := hf
    have hC : s1.currentSlide = s.currentSlide := by
      have hC' : (run_applescript .presInfo s).2.currentSlide = s.currentSlide := by
        unfold run_applescript
        dsimp only
        split
        · simp [callEffect]
        · rfl
      rw [h1] at hC'
      exact hC'
    by_cases hd : s1.docOpen
    · right
      simp only [hd, if_true]
      simp_all
    · left
      simp [hd]
  · rename_i r1 s1 h1
    left
    rfl

theorem frame_run (c : Call) (s : S) : Frame s ((run_applescript c s).2) :=
  run_applescript_frame c s

theorem frame_is_keynote_running (s : S) : Frame s ((is_keynote_running s).2) :=
  (tame_is_keynote_running s).1

theorem frame_ensure (s : S) : Frame s ((ensure_keynote_running s).2) :=
  (tame_ensure_keynote_running s).1

theorem frame_active (s : S) : Frame s ((is_presentation_active s).2) :=
  (tame_is_presentation_active s).1

theorem frame_playing (s : S) : Frame s ((is_presentation_playing s).2) :=
  (tame_is_presentation_playing s).1

theorem frame_start (s : S) : Frame s ((start_presentation s).2) :=
  (tame_start_presentation s).1

theorem frame_getInfo (s : S) : Frame s ((getCurrentPresentationInfo s).2) :=
  (tame_getInfo s).1

theorem frame_next_slide (s : S) : Frame s ((next_slide s).2) := by
  unfold next_slide
  split
  · rename_i s1 h1
    have t := frame_ensure s
    rw [h1] at t
    simpa using t
  · rename_i s1 h1
    have t1 : Frame s s1 := by
      have t := frame_ensure s
      rw [h1] at t
      simpa using t
    split
    · rename_i s2 h2
      have t2 : Frame s1 s2 := by
        have t := frame_active s1
        rw [h2] at t
        simpa using t
      simpa using t1.trans_frame t2
    · rename_i s2 h2
      have t2 : Frame s1 s2 := by
        have t := frame_active s1
        rw [h2] at t
        simpa using t
      split <;> rename_i r3 s3 h3 <;>
        have t3 : Frame s2 s3 := by
          have t := frame_run .showNext s2
          rw [h3] at t
          simpa using t
      · simpa using (t1.trans_frame t2).trans_frame t3
      · simpa using (t1.trans_frame t2).trans_frame t3

theorem frame_previous_slide (s : S) : Frame s ((previous_slide s).2) := by
  unfold previous_slide
  split
  · rename_i s1 h1
    have t := frame_ensure s
    rw [h1] at t
    simpa using t
  · rename_i s1 h1
    have t1 : Frame s s1 := by
      have t := frame_ensure s
      rw [h1] at t
      simpa using t
    split
    · rename_i s2 h2
      have t2 : Frame s1 s2 := by
        have t := frame_active s1
        rw [h2] at t
        simpa using t
      simpa using t1.trans_frame t2
    · rename_i s2 h2
      have t2 : Frame s1 s2 := by
        have t := frame_active s1
        rw [h2] at t
        simpa using t
      split <;> rename_i r3 s3 h3 <;>
        have t3 : Frame s2 s3 := by
          have t := frame_run .showPrev s2
          rw [h3] at t
          simpa using t
      · simpa using (t1.trans_frame t2).trans_frame t3
      · simpa using (t1.trans_frame t2).trans_frame t3

theorem frame_end_presentation (s : S) : Frame s ((end_presentation s).2) := by
  unfold end_presentation
  split
  · rename_i s1 h1
    have t := frame_is_keynote_running s
    rw [h1] at t
    simpa using t
  · rename_i s1 h1
    have t1 : Frame s s1 := by
      have t := frame_is_keynote_running s
      rw [h1] at t
      simpa using t
    split <;> rename_i r2 s2 h2 <;>
      have t2 : Frame s1 s2 := by
        have t := frame_run .stopShow s1
        rw [h2] at t
        simpa using t
    · simpa using t1.trans_frame t2
    · simpa using t1.trans_frame t2

theorem frame_pause_presentation (s : S) : Frame s ((pause_presentation s).2) := by
  unfold pause_presentation
  split
  · rename_i s1 h1
    have t := frame_is_keynote_running s
    rw [h1] at t
    simpa using t
  · rename_i s1 h1
    have t1 : Frame s s1 := by
      have t := frame_is_keynote_running s
      rw [h1] at t
      simpa using t
    split
    · rename_i r2 s2 h2
      have t2 : Frame s1 s2 := by
        have t := frame_run .playingWord s1
        rw [h2] at t
        simpa using t
      simpa using t1.trans_frame t2
    · rename_i r2 s2 h2
      have t2 : Frame s1 s2 := by
        have t := frame_run .playingWord s1
        rw [h2] at t
        simpa using t
      have tAll : Frame s s2 := t1.trans_frame t2
      dsimp only
      split <;> rename_i r3 s3 h3 <;>
        have t3 : Frame s2 s3 := by
          have t := frame_run (if r2 == "playing" then Call.pauseShow else Call.resumeShow) s2
          rw [h3] at t
          simpa using t
      · simpa using tAll.trans_frame t3
      · simpa using tAll.trans_frame t3

theorem frame_get_presentation_status (s : S) : Frame s ((get_presentation_status s).2) := by
  unfold get_presentation_status
  split
  · rename_i s1 h1
    have t := frame_is_keynote_running s
    rw [h1] at t
    simpa using t
  · rename_i s1 h1
    have t1 : Frame s s1 := by
      have t := frame_is_keynote_running s
      rw [h1] at t
      simpa using t
    split <;> rename_i r2 s2 h2 <;>
      have t2 : Frame s1 s2 := by
        have t := frame_run .statusDoc s1
        rw [h2] at t
        simpa using t
    · simpa using t1.trans_frame t2
    · -- success branch: the no_document check / parse does not touch the state
      split
      · simpa using t1.trans_frame t2
      · split
        · split
          · simpa using t1.trans_frame t2
          · simpa using t1.trans_frame t2
        · simpa using t1.trans_frame t2

/-- `{ s with currentSlideTextBuf := b }` keeps the frame. -/
theorem frame_setBuf (s : S) (b : Option String) :
    Frame s { s with currentSlideTextBuf := b } := by
  simp [Frame]

theorem frame_get_current_slide_text (s : S) : Frame s ((get_current_slide_text s).2) := by
  unfold get_current_slide_text
  split
  · rename_i s1 h1
    have t := frame_is_keynote_running s
    rw [h1] at t
    simpa using t
  · rename_i s1 h1
    have t1 : Frame s s1 := by
      have t := frame_is_keynote_running s
      rw [h1] at t
      simpa using t
    split
    · rename_i s2 h2
      have t2 : Frame s1 s2 := by
        have t := frame_active s1
        rw [h2] at t
        simpa using t
      simpa using t1.trans_frame t2
    · rename_i s2 h2
      have t2 : Frame s1 s2 := by
        have t := frame_active s1
        rw [h2] at t
        simpa using t
      split <;> rename_i r3 s3 h3 <;>
        have t3 : Frame s2 s3 := by
          have t := frame_run .slideTextQ s2
          rw [h3] at t
          simpa using t
      · simpa using ((t1.trans_frame t2).trans_frame t3).trans_frame (frame_setBuf s3 (some r3))
      · simpa using (t1.trans_frame t2).trans_frame t3

theorem frame_speak_next_block (rate : Rat) (s : S) :
    Frame s ((speak_next_block rate s).2) := by
  unfold speak_next_block
  split
  · rename_i r1 s1 h1
    have t := frame_get_current_slide_text s
    rw [h1] at t
    simpa using t
  · rename_i r1 s1 h1
    have t1 : Frame s s1 := by
      have t := frame_get_current_slide_text s
      rw [h1] at t
      simpa using t
    split
    · simpa using t1
    · split <;> simpa using t1

theorem frame_repeat_last_block (s : S) : Frame s ((repeat_last_block s).2) := by
  unfold repeat_last_block
  split
  · exact frame_speak_next_block 1 s
  · exact Frame.refl_frame s

theorem frame_handle_question (q : String) (s : S) : Frame s ((handle_question q s).2) :=
  Frame.refl_frame s

theorem frame_search_web (q : String) (s : S) : Frame s ((search_web q s).2) := by
  unfold search_web
  dsimp only
  split <;> exact Frame.refl_frame s

theorem frame_generate_summary (s : S) : Frame s ((generate_summary s).2) := by
  unfold generate_summary
  split
  · rename_i s1 h1
    have t := frame_is_keynote_running s
    rw [h1] at t
    simpa using t
  · rename_i s1 h1
    have t1 : Frame s s1 := by
      have t := frame_is_keynote_running s
      rw [h1] at t
      simpa using t
    split
    · rename_i s2 h2
      have t2 : Frame s1 s2 := by
        have t := frame_active s1
        rw [h2] at t
        simpa using t
      simpa using t1.trans_frame t2
    · rename_i s2 h2
      have t2 : Frame s1 s2 := by
        have t := frame_active s1
        rw [h2] at t
        simpa using t
      split
      rename_i info s3 h3
      have t3 : Frame s2 s3 := by
        have t := frame_getInfo s2
        rw [h3] at t
        simpa using t
      have tAll : Frame s s3 := (t1.trans_frame t2).trans_frame t3
      cases info <;> dsimp only <;>
        split <;> simpa using tAll.trans_frame (frame_get_current_slide_text s3)

theorem frame_goto_slide_by_number (n : Int) (s : S) :
    Frame s ((goto_slide_by_number n s).2) := by
  unfold goto_slide_by_number
  split
  · rename_i s1 h1
    have t := frame_getInfo s
    rw [h1] at t
    simpa using t
  · rename_i info s1 h1
    have t1 : Frame s s1 := by
      have t := frame_getInfo s
      rw [h1] at t
      simpa using t
    dsimp only
    by_cases hc : (decide (n < 1) || decide (n > (info.slideCount : Int))) = true
    · rw [if_pos hc]
      simpa using t1
    · rw [if_neg hc]
      split <;> rename_i r2 s2 h2 <;>
        have t2 : Frame s1 s2 := by
          have t := frame_run (.showSlide n) s1
          rw [h2] at t
          simpa using t
      · simpa using t1.trans_frame t2
      · simpa using t1.trans_frame t2

theorem frame_getAllSlidesContent (s : S) : Frame s ((getAllSlidesContent s).2) := by
  unfold getAllSlidesContent
  split
  rename_i b r s1 h
  have t : Frame s s1 := by
    have t' := frame_run .allSlides s
    rw [h] at t'
    simpa using t'
  split <;> simpa using t

theorem frame_goto_slide_by_content (ct : String) (s : S) :
    Frame s ((goto_slide_by_content ct s).2) := by
  unfold goto_slide_by_content
  split
  rename_i all s1 h1
  have t1 : Frame s s1 := by
    have t := frame_getAllSlidesContent s
    rw [h1] at t
    simpa using t
  split
  · simpa using t1
  · split
    · simpa using t1
    · split
      · rename_i k
        split
        · split
          · rename_i n hn
            split
            rename_i r2 s2 h2
            have t2 : Frame s1 s2 := by
              have t := frame_goto_slide_by_number n s1
              rw [h2] at t
              simpa using t
            simpa using t1.trans_frame t2
          · simpa using t1
        · simpa using t1
      · simpa using t1

theorem frame_goto_slide (sn : Option Int) (st : Option String) (s : S) :
    Frame s ((goto_slide sn st s).2) := by
  have hD : ∀ u : S, Frame u
      ((match sn with
        | some n =>
          match goto_slide_by_number n u with
          | (r, u') => (Except.ok r, u')
        | none =>
          match st with
          | some t => goto_slide_by_content t u
          | none => (.ok { success := false, message := "Укажите номер слайда или текст для поиска" }, u)).2) := by
    intro u
    cases sn with
    | some n => simpa using frame_goto_slide_by_number n u
    | none =>
      cases st with
      | some t => exact frame_goto_slide_by_content t u
      | none => exact Frame.refl_frame u
  unfold goto_slide
  rcases h1 : ensure_keynote_running s with ⟨b1, s1⟩
  have t1 : Frame s s1 := by
    have t := frame_ensure s
    rw [h1] at t
    exact t
  cases b1 <;> dsimp only
  · exact t1
  · rcases h2 : is_presentation_active s1 with ⟨b2, s2⟩
    have t2 : Frame s1 s2 := by
      have t := frame_active s1
      rw [h2] at t
      exact t
    cases b2 <;> dsimp only
    · exact t1.trans_frame t2
    · rcases h3 : is_presentation_playing s2 with ⟨b3, s3⟩
      have t3 : Frame s2 s3 := by
        have t := frame_playing s2
        rw [h3] at t
        exact t
      have tAll : Frame s s3 := (t1.trans_frame t2).trans_frame t3
      cases b3 <;> dsimp only
      · rcases h4 : start_presentation s3 with ⟨sr, s4⟩
        have t4 : Frame s3 s4 := by
          have t := frame_start s3
          rw [h4] at t
          exact t
        cases hs : sr.success
        · rw [if_pos (show (!false) = true from rfl)]
          exact tAll.trans_frame t4
        · rw [if_neg (show ¬ (!true) = true from by simp)]
          exact (tAll.trans_frame t4).trans_frame (hD s4)
      · exact tAll.trans_frame (hD s3)

theorem frame_update_state (s : S) : Frame s (update_state s) := by
  unfold update_state
  split
  · rename_i s1 h1
    have t : Frame s s1 := by
      have t' := frame_is_keynote_running s
      rw [h1] at t'
      simpa using t'
    simpa using t.trans_frame (by simp [Frame])
  · rename_i s1 h1
    have t1 : Frame s s1 := by
      have t := frame_is_keynote_running s
      rw [h1] at t
      simpa using t
    split
    · rename_i s2 h2
      have t2 : Frame s1 s2 := by
        have t := frame_active s1
        rw [h2] at t
        simpa using t
      simpa using (t1.trans_frame t2).trans_frame (by simp [Frame])
    · rename_i s2 h2
      have t2 : Frame s1 s2 := by
        have t := frame_active s1
        rw [h2] at t
        simpa using t
      split
      rename_i st s3 h3
      have t3 : Frame s2 s3 := by
        have t := frame_get_presentation_status s2
        rw [h3] at t
        simpa using t
      have tAll : Frame s s3 := (t1.trans_frame t2).trans_frame t3
      split
      · split
        · simpa using tAll.trans_frame (by simp [Frame])
        · simpa using tAll.trans_frame (by simp [Frame])
      · exact tAll

theorem frame_validate_action (a : String) (s : S) : Frame s ((validate_action a s).2) := by
  unfold validate_action
  dsimp only
  split <;> simpa using frame_update_state s

theorem Frame.totalSlides_eq {s t : S} (h : Frame s t) : t.totalSlides = s.totalSlides := h.1

theorem Frame.docOpen_eq {s t : S} (h : Frame s t) : t.docOpen = s.docOpen := h.2.1

theorem Frame.slideText_eq {s t : S} (h : Frame s t) : t.slideText = s.slideText := h.2.2.1

theorem Frame.ok_eq {s t : S} (h : Frame s t) : t.ok = s.ok := h.2.2.2.2.1

theorem Frame.lastSpoken_eq {s t : S} (h : Frame s t) :
    t.lastSpokenTextBuf = s.lastSpokenTextBuf := by
  obtain ⟨-, -, -, -, -, -, -, -, -, -, h', -⟩ := h
  exact h'

theorem pyLower_false_beq : (pyLower "false" == "true") = false := rfl

theorem pyLower_true_beq : (pyLower "true" == "true") = true := rfl

theorem speak_next_block_eval (rate : Rat) (s : S) (hOk : ∀ n, s.ok n = true) :
    (speak_next_block rate s).1 = speakRes rate s := by
  unfold speak_next_block get_current_slide_text is_presentation_active is_keynote_running
    run_applescript
  cases hR : s.keynoteRunning <;> cases hD : s.docOpen <;>
    simp [callOut, callEffect, boolStr, hR, hD, hOk, speakRes,
      pyLower_false_beq, pyLower_true_beq]
  split
  · rfl
  · split <;> rfl

theorem keynoteRunning_run (c : Call) (h : c ≠ .activate) (s : S) :
    ((run_applescript c s).2).keynoteRunning = s.keynoteRunning :=
  run_keynoteRunning c h s

theorem keynoteRunning_is_running (s : S) :
    ((is_keynote_running s).2).keynoteRunning = s.keynoteRunning := by
  unfold is_keynote_running
  rcases h : run_applescript .existsProcess s with ⟨⟨b, r⟩, s1⟩
  dsimp only
  have t := run_keynoteRunning .existsProcess (by intro h'; cases h') s
  rw [h] at t
  exact t

theorem keynoteRunning_is_active (s : S) :
    ((is_presentation_active s).2).keynoteRunning = s.keynoteRunning := by
  unfold is_presentation_active
  rcases h : run_applescript .existsDoc s with ⟨⟨b, r⟩, s1⟩
  dsimp only
  have t := run_keynoteRunning .existsDoc (by intro h'; cases h') s
  rw [h] at t
  exact t

theorem keynoteRunning_get_text (s : S) :
    ((get_current_slide_text s).2).keynoteRunning = s.keynoteRunning := by
  unfold get_current_slide_text
  rcases h1 : is_keynote_running s with ⟨b1, s1⟩
  have k1 : s1.keynoteRunning = s.keynoteRunning := by
    have t := keynoteRunning_is_running s
    rw [h1] at t
    exact t
  cases b1 <;> dsimp only
  · exact k1
  · rcases h2 : is_presentation_active s1 with ⟨b2, s2⟩
    have k2 : s2.keynoteRunning = s1.keynoteRunning := by
      have t := keynoteRunning_is_active s1
      rw [h2] at t
      exact t
    cases b2 <;> dsimp only
    · exact k2.trans k1
    · rcases h3 : run_applescript .slideTextQ s2 with ⟨⟨b3, r3⟩, s3⟩
      have k3 : s3.keynoteRunning = s2.keynoteRunning := by
        have t := run_keynoteRunning .slideTextQ (by intro h'; cases h') s2
        rw [h3] at t
        exact t
      cases b3 <;> dsimp only
      · exact (k3.trans k2).trans k1
      · simpa using (k3.trans k2).trans k1

theorem keynoteRunning_speak (rate : Rat) (s : S) :
    ((speak_next_block rate s).2).keynoteRunning = s.keynoteRunning := by
  unfold speak_next_block
  rcases h1 : get_current_slide_text s with ⟨⟨b1, r1⟩, s1⟩
  have k1 : s1.keynoteRunning = s.keynoteRunning := by
    have t := keynoteRunning_get_text s
    rw [h1] at t
    exact t
  cases b1 <;> dsimp only
  · exact k1
  · split
    · exact k1
    · split <;> exact k1

theorem speakRes_congr (rate : Rat) {s t : S} (hK : t.keynoteRunning = s.keynoteRunning)
    (hD : t.docOpen = s.docOpen) (hT : t.slideText = s.slideText) :
    speakRes rate t = speakRes rate s := by
  unfold speakRes
  rw [hK, hD, hT]

/-! ## Claim theorems (first group) -/

/-- C1: `identify_action` (src/core/command_router.py lines 317–385) is
truncated — its `try` body only assembles prompt strings and never
returns, so the function yields `None` for every input text and every
presentation state.  In particular it never consults `COMMAND_PATTERNS`:
a text matching a registered pattern with confidence ≥ 0.85 (for example
"следующий слайд", pattern confidence 0.95) does not produce that action —
no dictionary with an action and a confidence is produced at all, contrary
to the function's own docstring. -/
theorem identify_action_always_none (text : String) (current_state : Option PState) :
    identify_action text current_state = none := rfl

/-- C3: evaluating the embedded `PresentationContext.update_state` on a
backend snapshot in which Keynote is running, a document is open and
playback is not active yields `PAUSED`, not `READY`: the status call
returns a `data` dictionary with `is_playing=False`, and `update_state`
maps that case to `PAUSED`.  (`READY`, documented in the enum as
"презентация готова, но не запущена", is reached only when the status
succeeds without `data`, which cannot happen for an open document.) -/
theorem update_state_open_not_playing_gives_paused :
    (update_state { keynoteRunning := true, docOpen := true, playing := false,
                    docName := "Demo", ok := fun _ => true }).ctxState = PState.PAUSED
    ∧ PState.PAUSED ≠ PState.READY := by
  exact ⟨rfl, by decide⟩

/-- C4: `handle_command` raises an uncaught `TypeError` on EVERY input:
`identify_action` returns `None`, and the membership test
`"multiple_actions" in result` on `None` raises
`TypeError: argument of type 'NoneType' is not iterable` before any
capability is invoked, contradicting the claim (and the function's own
docstring) that a result object is always returned. -/
theorem handle_command_always_raises (tf : TextFns) (text : String) (s : S) :
    (handle_command tf text s).1 = Except.error PyErr.typeError := rfl

/-- C2 counterexample: on a slide with two non-empty paragraphs
("Заголовок" and "Второй абзац") and a fully healthy backend, the second
consecutive `speak_next_block` call returns paragraph 1 again — not
paragraph 2 as the claim's cursor cycle demands.  `speak_next_block` in
`src/slides/keynote_controller.py` always reads only the first non-empty
paragraph (the title) and keeps no cursor. -/
theorem speak_next_block_counterexample :
    (speak_next_block 1 sDemo).1.text_to_speak = some "Заголовок" ∧
    (speak_next_block 1 ((speak_next_block 1 sDemo).2)).1.text_to_speak = some "Заголовок" ∧
    some "Заголовок" ≠ some "Второй абзац" :=
  ⟨rfl, rfl, by decide⟩

/-- C2 amended: with the backend healthy and a slide whose text is
non-blank with at least one non-empty paragraph, EVERY `speak_next_block`
call (shown here for two consecutive calls) returns the FIRST non-empty
paragraph as `text_to_speak`, and the spoken-text cursor
(`_last_spoken_text`) never advances: N calls on a K-paragraph slide all
return paragraph 1. -/
theorem speak_next_block_title_only (rate : Rat) (s : S)
    (hOk : ∀ n, s.ok n = true)
    (hRun : s.keynoteRunning = true) (hDoc : s.docOpen = true)
    (hStrip : pyStrip s.slideText ≠ "")
    (hPar : paragraphsOf s.slideText ≠ []) :
    (speak_next_block rate s).1.text_to_speak
        = some ((paragraphsOf s.slideText).headD "") ∧
    (speak_next_block rate ((speak_next_block rate s).2)).1.text_to_speak
        = some ((paragraphsOf s.slideText).headD "") ∧
    ((speak_next_block rate s).2).lastSpokenTextBuf = s.lastSpokenTextBuf ∧
    ((speak_next_block rate ((speak_next_block rate s).2)).2).lastSpokenTextBuf
        = s.lastSpokenTextBuf := by
  have hF := frame_speak_next_block rate s
  have hOk1 : ∀ n, ((speak_next_block rate s).2).ok n = true := by
    intro n
    rw [hF.ok_eq]
    exact hOk n
  have e1 := speak_next_block_eval rate s hOk
  have e2 := speak_next_block_eval rate ((speak_next_block rate s).2) hOk1
  have ec : speakRes rate ((speak_next_block rate s).2) = speakRes rate s :=
    speakRes_congr rate (keynoteRunning_speak rate s) hF.docOpen_eq hF.slideText_eq
  have hspec : (speakRes rate s).text_to_speak = some ((paragraphsOf s.slideText).headD "") := by
    have h1 : (pyStrip s.slideText == "") = false := beq_eq_false_iff_ne.mpr hStrip
    have h2 : (s.slideText == "") = false := by
      apply beq_eq_false_iff_ne.mpr
      intro hx
      apply hStrip
      rw [hx]
      rfl
    have hcond : (s.slideText == "" || pyStrip s.slideText == "") = false := by
      rw [h1, h2]
      rfl
    unfold speakRes
    rw [hRun, hDoc]
    simp only [Bool.not_true, Bool.false_eq_true, if_false, hcond]
    cases hP : paragraphsOf s.slideText with
    | nil => exact absurd hP hPar
    | cons t ts => simp
  refine ⟨?_, ?_, hF.lastSpoken_eq, ?_⟩
  · rw [e1, hspec]
  · rw [e2, ec, hspec]
  · have hF2 := frame_speak_next_block rate ((speak_next_block rate s).2)
    rw [hF2.lastSpoken_eq, hF.lastSpoken_eq]

/-- C2 amended witness: the theorem applied at a concrete healthy world
with a two-paragraph slide. -/
theorem speak_next_block_title_only_witness :
    (speak_next_block 1 sDemo).1.text_to_speak
      = some ((paragraphsOf sDemo.slideText).headD "") :=
  (speak_next_block_title_only 1 sDemo (fun _ => rfl) rfl rfl (by decide) (by decide)).1

theorem invalid_messages_ne_empty (s : S) (st : PState) : invalid_messages s st ≠ "" := by
  cases st <;> simp only [invalid_messages] <;>
    first
      | decide
      | (intro h
         have := congrArg String.data h
         simp [String.data_append] at this)

/-- C6: for every `(action, state)` pair in which the action is not in the
legality table `valid_actions` for the (freshly refreshed) state,
`PresentationContext.validate_action` returns `valid=false` together with
the state's dedicated guidance message, which is non-empty. -/
theorem validate_action_unlisted_invalid (action : String) (s : S)
    (h : action ∉ valid_actions ((update_state s).ctxState)) :
    (validate_action action s).1.valid = false ∧
    ∃ m, (validate_action action s).1.message = some m ∧
      m = invalid_messages (update_state s) ((update_state s).ctxState) ∧ m ≠ "" := by
  unfold validate_action
  dsimp only
  rw [if_neg (by simpa using h)]
  exact ⟨rfl, invalid_messages (update_state s) ((update_state s).ctxState), rfl, rfl,
    invalid_messages_ne_empty _ _⟩

/-- C6 witness: `pause` is not legal in the `NO_KEYNOTE` state. -/
theorem validate_action_unlisted_invalid_witness :
    (validate_action "pause" sNoKeynote).1.valid = false ∧
    ∃ m, (validate_action "pause" sNoKeynote).1.message = some m ∧
      m = invalid_messages (update_state sNoKeynote) ((update_state sNoKeynote).ctxState) ∧
      m ≠ "" :=
  validate_action_unlisted_invalid "pause" sNoKeynote (by decide)

/-- C7: `repeat_last_block` is idempotent.  With a stable backend (every
script succeeds; the slide does not change between the calls), two
consecutive calls return the same `text_to_speak` and neither call touches
the spoken-text cursor `_last_spoken_text`. -/
theorem repeat_last_block_idempotent (s : S) (hOk : ∀ n, s.ok n = true) :
    (repeat_last_block ((repeat_last_block s).2)).1.text_to_speak
        = (repeat_last_block s).1.text_to_speak ∧
    ((repeat_last_block s).2).lastSpokenTextBuf = s.lastSpokenTextBuf ∧
    ((repeat_last_block ((repeat_last_block s).2)).2).lastSpokenTextBuf
        = ((repeat_last_block s).2).lastSpokenTextBuf := by
  cases hL : s.lastSpokenTextBuf with
  | some t =>
    have e1 : repeat_last_block s =
        ({ success := true, message := "Повторяю: " ++ t, text_to_speak := some t }, s) := by
      unfold repeat_last_block
      rw [hL]
    rw [e1]
    dsimp only
    rw [e1]
    dsimp only
    exact ⟨rfl, hL, rfl⟩
  | none =>
    have e1 : repeat_last_block s = speak_next_block 1 s := by
      unfold repeat_last_block
      rw [hL]
    have hF : Frame s ((speak_next_block 1 s).2) := frame_speak_next_block 1 s
    have hL1 : ((speak_next_block 1 s).2).lastSpokenTextBuf = none := by
      rw [hF.lastSpoken_eq, hL]
    have e2 : repeat_last_block ((speak_next_block 1 s).2)
        = speak_next_block 1 ((speak_next_block 1 s).2) := by
      unfold repeat_last_block
      rw [hL1]
    have hOk1 : ∀ n, ((speak_next_block 1 s).2).ok n = true := by
      intro n
      rw [hF.ok_eq]
      exact hOk n
    have r1 := speak_next_block_eval 1 s hOk
    have r2 := speak_next_block_eval 1 ((speak_next_block 1 s).2) hOk1
    have rc : speakRes 1 ((speak_next_block 1 s).2) = speakRes 1 s :=
      speakRes_congr 1 (keynoteRunning_speak 1 s) hF.docOpen_eq hF.slideText_eq
    refine ⟨?_, ?_, ?_⟩
    · rw [e1, e2, r1, r2, rc]
    · rw [e1, hF.lastSpoken_eq]
      exact hL
    · rw [e1, e2]
      exact (frame_speak_next_block 1 ((speak_next_block 1 s).2)).lastSpoken_eq

/-- C7 witness: the theorem applied at a concrete healthy world. -/
theorem repeat_last_block_idempotent_witness :
    (repeat_last_block ((repeat_last_block sDemo).2)).1.text_to_speak
        = (repeat_last_block sDemo).1.text_to_speak ∧
    ((repeat_last_block sDemo).2).lastSpokenTextBuf = sDemo.lastSpokenTextBuf ∧
    ((repeat_last_block ((repeat_last_block sDemo).2)).2).lastSpokenTextBuf
        = ((repeat_last_block sDemo).2).lastSpokenTextBuf :=
  repeat_last_block_idempotent sDemo (fun _ => rfl)

/-- C9: the module global `_last_spoken_text` is `None` at initialisation
and no operation of `keynote_controller.py` ever assigns it, so every
reachable state keeps it `None`; consequently `repeat_last_block` always
takes its `None` branch and is literally `speak_next_block` at the default
rate 1.0 (same result and same state effect). -/
theorem last_spoken_never_assigned :
    (∀ s : S, ((next_slide s).2).lastSpokenTextBuf = s.lastSpokenTextBuf) ∧
    (∀ s : S, ((previous_slide s).2).lastSpokenTextBuf = s.lastSpokenTextBuf) ∧
    (∀ s : S, ((pause_presentation s).2).lastSpokenTextBuf = s.lastSpokenTextBuf) ∧
    (∀ s : S, ((start_presentation s).2).lastSpokenTextBuf = s.lastSpokenTextBuf) ∧
    (∀ s : S, ((end_presentation s).2).lastSpokenTextBuf = s.lastSpokenTextBuf) ∧
    (∀ s : S, ((get_presentation_status s).2).lastSpokenTextBuf = s.lastSpokenTextBuf) ∧
    (∀ s : S, ((get_current_slide_text s).2).lastSpokenTextBuf = s.lastSpokenTextBuf) ∧
    (∀ (rate : Rat) (s : S),
      ((speak_next_block rate s).2).lastSpokenTextBuf = s.lastSpokenTextBuf) ∧
    (∀ s : S, ((repeat_last_block s).2).lastSpokenTextBuf = s.lastSpokenTextBuf) ∧
    (∀ (q : String) (s : S),
      ((handle_question q s).2).lastSpokenTextBuf = s.lastSpokenTextBuf) ∧
    (∀ (q : String) (s : S), ((search_web q s).2).lastSpokenTextBuf = s.lastSpokenTextBuf) ∧
    (∀ s : S, ((generate_summary s).2).lastSpokenTextBuf = s.lastSpokenTextBuf) ∧
    (∀ (sn : Option Int) (st : Option String) (s : S),
      ((goto_slide sn st s).2).lastSpokenTextBuf = s.lastSpokenTextBuf) ∧
    (∀ s : S, s.lastSpokenTextBuf = none → repeat_last_block s = speak_next_block 1 s) := by
  refine ⟨fun s => (frame_next_slide s).lastSpoken_eq,
    fun s => (frame_previous_slide s).lastSpoken_eq,
    fun s => (frame_pause_presentation s).lastSpoken_eq,
    fun s => (frame_start s).lastSpoken_eq,
    fun s => (frame_end_presentation s).lastSpoken_eq,
    fun s => (frame_get_presentation_status s).lastSpoken_eq,
    fun s => (frame_get_current_slide_text s).lastSpoken_eq,
    fun rate s => (frame_speak_next_block rate s).lastSpoken_eq,
    fun s => (frame_repeat_last_block s).lastSpoken_eq,
    fun q s => (frame_handle_question q s).lastSpoken_eq,
    fun q s => (frame_search_web q s).lastSpoken_eq,
    fun s => (frame_generate_summary s).lastSpoken_eq,
    fun sn st s => (frame_goto_slide sn st s).lastSpoken_eq,
    fun s h => ?_⟩
  unfold repeat_last_block
  rw [h]

/-- C9 witness: the equivalence applied at a concrete reachable state
(fresh world, buffer still `None`), plus one preservation instance. -/
theorem last_spoken_never_assigned_witness :
    repeat_last_block sDemo = speak_next_block 1 sDemo ∧
    ((next_slide sDemo).2).lastSpokenTextBuf = sDemo.lastSpokenTextBuf :=
  ⟨last_spoken_never_assigned.2.2.2.2.2.2.2.2.2.2.2.2.2 sDemo rfl,
   last_spoken_never_assigned.1 sDemo⟩

theorem goto_slide_by_number_oor (s u : S) (K : Int)
    (hT : u.totalSlides = s.totalSlides) (hTr : NoNewShow s u)
    (hK : K < 1 ∨ (s.totalSlides : Int) < K) :
    ((goto_slide_by_number K u).1).success = false ∧
    NoNewShow s ((goto_slide_by_number K u).2) := by
  unfold goto_slide_by_number
  rcases hI : getCurrentPresentationInfo u with ⟨info, u1⟩
  have tI : Tame u u1 := by
    have t := tame_getInfo u
    rw [hI] at t
    exact t
  have shape := getInfo_shape u
  rw [hI] at shape
  cases info with
  | none =>
    dsimp only
    exact ⟨rfl, hTr.trans_nns tI.2⟩
  | some i =>
    have hi : i = { docName := u.docName, slideCount := u.totalSlides,
                    currentSlide := u.currentSlide } := by
      rcases shape with h | h
      · simp at h
      · simpa using h
    subst hi
    dsimp only
    have hc : (decide (K < 1) || decide (K > (u.totalSlides : Int))) = true := by
      rcases hK with h | h
      · simp [h]
      · have h' : (u.totalSlides : Int) < K := by
          rw [hT]
          exact h
        simp [h']
    rw [if_pos (by simpa using hc)]
    exact ⟨rfl, hTr.trans_nns tI.2⟩

/-- C5: for every slide number `K` outside `[1, total_slides]`,
`goto_slide(slide_number=K)` returns `success=false` and the navigation
capability — the `show slide` AppleScript call — is never invoked: the
trace after the call contains no `showSlide` entry that was not already
there.  This holds for every backend world and every script-failure
pattern (the preliminary `start front document` call is a separate
capability; see the companion frame-effect theorem). -/
theorem goto_slide_out_of_range (s : S) (K : Int)
    (hK : K < 1 ∨ (s.totalSlides : Int) < K) :
    (∃ r, (goto_slide (some K) none s).1 = Except.ok r ∧ r.success = false) ∧
    (∀ n, Call.showSlide n ∈ ((goto_slide (some K) none s).2).trace →
      Call.showSlide n ∈ s.trace) := by
  unfold goto_slide
  rcases h1 : ensure_keynote_running s with ⟨b1, s1⟩
  have t1 : Tame s s1 := by
    have t := tame_ensure_keynote_running s
    rw [h1] at t
    exact t
  cases b1 <;> dsimp only
  · exact ⟨⟨_, rfl, rfl⟩, t1.2⟩
  · rcases h2 : is_presentation_active s1 with ⟨b2, s2⟩
    have t2 : Tame s1 s2 := by
      have t := tame_is_presentation_active s1
      rw [h2] at t
      exact t
    cases b2 <;> dsimp only
    · exact ⟨⟨_, rfl, rfl⟩, (t1.trans_tame t2).2⟩
    · rcases h3 : is_presentation_playing s2 with ⟨b3, s3⟩
      have t3 : Tame s2 s3 := by
        have t := tame_is_presentation_playing s2
        rw [h3] at t
        exact t
      have tA : Tame s s3 := (t1.trans_tame t2).trans_tame t3
      cases b3 <;> dsimp only
      · -- not playing: start_presentation first
        rcases h4 : start_presentation s3 with ⟨sr, s4⟩
        have t4 : Tame s3 s4 := by
          have t := tame_start_presentation s3
          rw [h4] at t
          exact t
        have tB : Tame s s4 := tA.trans_tame t4
        cases hs : sr.success
        · rw [if_pos (show (!false) = true from rfl)]
          exact ⟨⟨sr, rfl, hs⟩, tB.2⟩
        · rw [if_neg (show ¬(!true) = true from by simp)]
          dsimp only
          obtain ⟨hres, htr⟩ :=
            goto_slide_by_number_oor s s4 K tB.1.totalSlides_eq tB.2 hK
          exact ⟨⟨(goto_slide_by_number K s4).1, rfl, hres⟩, htr⟩
      · -- already playing: straight to the range check
        obtain ⟨hres, htr⟩ :=
          goto_slide_by_number_oor s s3 K tA.1.totalSlides_eq tA.2 hK
        exact ⟨⟨(goto_slide_by_number K s3).1, rfl, hres⟩, htr⟩

/-- C5 witness: slide 5 of a 3-slide presentation. -/
theorem goto_slide_out_of_range_witness :
    (∃ r, (goto_slide (some 5) none sDemo).1 = Except.ok r ∧ r.success = false) ∧
    (∀ n, Call.showSlide n ∈ ((goto_slide (some 5) none sDemo).2).trace →
      Call.showSlide n ∈ sDemo.trace) :=
  goto_slide_out_of_range sDemo 5 (by decide)

/-- C10: when `goto_slide` is called while the backend reports not-playing,
it invokes `start_presentation` BEFORE the range check or any navigation —
shown by the exact call trace of a fully-determined run: with Keynote
running, a document open, playback stopped, every script succeeding and
`K` beyond the last slide, the call fails (`success=false`) yet the
world's `playing` flag has flipped to `true`, and the trace (newest call
first) shows `startDoc` issued before the `presInfo` fetch that feeds the
range check, with no `showSlide` navigation at all. -/
theorem goto_slide_autostarts_before_range_check (s : S) (K : Int)
    (hRun : s.keynoteRunning = true) (hDoc : s.docOpen = true) (hPlay : s.playing = false)
    (hOk : ∀ n, s.ok n = true) (hK : (s.totalSlides : Int) < K) :
    (goto_slide (some K) none s).1 = Except.ok
      { success := false,
        message := "Слайд " ++ toString K ++ " не существует. Всего слайдов: "
          ++ toString (s.totalSlides : Int) } ∧
    ((goto_slide (some K) none s).2).playing = true ∧
    ((goto_slide (some K) none s).2).trace =
      [.presInfo, .startDoc, .existsProcess, .playingBool, .existsProcess, .existsDoc,
       .existsProcess] ++ s.trace := by
  simp [goto_slide, ensure_keynote_running, is_presentation_active, is_presentation_playing,
    start_presentation, goto_slide_by_number, getCurrentPresentationInfo, is_keynote_running,
    run_applescript, callOut, callEffect, boolStr, hRun, hDoc, hPlay, hOk, hK,
    pyLower_true_beq, pyLower_false_beq]

/-- C10 witness: the stopped demo world with target slide 5. -/
theorem goto_slide_autostarts_before_range_check_witness :
    (goto_slide (some 5) none sDemoStopped).1 = Except.ok
      { success := false,
        message := "Слайд " ++ toString (5 : Int) ++ " не существует. Всего слайдов: "
          ++ toString ((sDemoStopped.totalSlides : Int)) } ∧
    ((goto_slide (some 5) none sDemoStopped).2).playing = true ∧
    ((goto_slide (some 5) none sDemoStopped).2).trace =
      [.presInfo, .startDoc, .existsProcess, .playingBool, .existsProcess, .existsDoc,
       .existsProcess] ++ sDemoStopped.trace :=
  goto_slide_autostarts_before_range_check sDemoStopped 5 rfl rfl rfl (fun _ => rfl) (by decide)

theorem process_actions_cons (tf : TextFns) (text : String) (a : String × Rat)
    (rest : List (String × Rat)) (s : S) :
    process_actions tf text (a :: rest) s =
      (((process_one tf text a s).1).elim
          (process_actions tf text rest ((process_one tf text a s).2)).1
          (fun e => e :: (process_actions tf text rest ((process_one tf text a s).2)).1),
       (process_actions tf text rest ((process_one tf text a s).2)).2) := by
  rcases a with ⟨action, confidence⟩
  rw [process_actions]
  unfold process_one
  dsimp only
  by_cases hskip :
      (confidence < mkRat 1 2 || action == "unknown" || action == "need_clarification") = true
  · rw [if_pos hskip, if_pos hskip]
    rfl
  · rw [if_neg hskip, if_neg hskip]
    rcases hv : validate_action action s with ⟨v, s1⟩
    dsimp only
    cases hval : v.valid
    · rw [if_pos (show (!false) = true from rfl), if_pos (show (!false) = true from rfl)]
      rfl
    · rw [if_neg (show ¬(!true) = true from by simp),
        if_neg (show ¬(!true) = true from by simp)]
      try dsimp only
      by_cases hcf : (COMMAND_FUNCTIONS.contains action) = true
      · rw [if_pos hcf, if_pos hcf]
        rcases hc : call_command_fn action
            (supported_params action (extract_parameters tf text action)) s1 with ⟨cr, s2⟩
        cases cr <;> rfl
      · rw [if_neg hcf, if_neg hcf]
        rfl

theorem process_one_entry_fields (tf : TextFns) (text : String) (a : String × Rat) (s : S)
    (e : ActionExecEntry) (h : (process_one tf text a s).1 = some e) :
    mkRat 1 2 ≤ e.confidence ∧ e.action ≠ "unknown" ∧ e.action ≠ "need_clarification" := by
  rcases a with ⟨action, confidence⟩
  unfold process_one at h
  dsimp only at h
  by_cases hskip :
      (confidence < mkRat 1 2 || action == "unknown" || action == "need_clarification") = true
  · rw [if_pos hskip] at h
    simp at h
  · have hfacts : mkRat 1 2 ≤ confidence ∧ action ≠ "unknown" ∧ action ≠ "need_clarification" := by
      simp only [Bool.or_eq_true, decide_eq_true_eq, beq_iff_eq, not_or] at hskip
      exact ⟨not_lt.mp hskip.1.1, hskip.1.2, hskip.2⟩
    rw [if_neg hskip] at h
    rcases hv : validate_action action s with ⟨v, s1⟩
    rw [hv] at h
    try dsimp only at h
    cases hval : v.valid
    · rw [hval] at h
      rw [if_pos (show (!false) = true from rfl)] at h
      simp at h
    · rw [hval] at h
      rw [if_neg (show ¬(!true) = true from by simp)] at h
      try dsimp only at h
      by_cases hcf : (COMMAND_FUNCTIONS.contains action) = true
      · rw [if_pos hcf] at h
        rcases hc : call_command_fn action
            (supported_params action (extract_parameters tf text action)) s1 with ⟨cr, s2⟩
        rw [hc] at h
        cases cr with
        | ok er =>
          try dsimp only at h
          obtain rfl : _ = e := Option.some.inj h
          exact hfacts
        | error e' =>
          try dsimp only at h
          obtain rfl : _ = e := Option.some.inj h
          exact hfacts
      · rw [if_neg hcf] at h
        try dsimp only at h
        obtain rfl : _ = e := Option.some.inj h
        exact hfacts

theorem process_one_invalid_skips (tf : TextFns) (text : String) (a : String × Rat) (s : S)
    (hskip : ¬(a.2 < mkRat 1 2 || a.1 == "unknown" || a.1 == "need_clarification") = true)
    (hval : (validate_action a.1 s).1.valid = false) :
    process_one tf text a s = (none, (validate_action a.1 s).2) := by
  rcases a with ⟨action, confidence⟩
  dsimp only at hskip hval ⊢
  unfold process_one
  dsimp only
  rw [if_neg hskip]
  rcases hv : validate_action action s with ⟨v, s1⟩
  rw [hv] at hval
  dsimp only at hval
  dsimp only
  rw [if_pos (show (!v.valid) = true from by rw [hval]; rfl)]

theorem process_actions_entries (tf : TextFns) (text : String) :
    ∀ (acts : List (String × Rat)) (s : S) (e : ActionExecEntry),
      e ∈ (process_actions tf text acts s).1 →
      mkRat 1 2 ≤ e.confidence ∧ e.action ≠ "unknown" ∧ e.action ≠ "need_clarification" := by
  intro acts
  induction acts with
  | nil =>
    intro s e he
    simp [process_actions] at he
  | cons a rest ih =>
    intro s e he
    rw [process_actions_cons] at he
    rcases ho : (process_one tf text a s).1 with _ | entry
    · rw [ho] at he
      exact ih _ e he
    · rw [ho] at he
      dsimp only [Option.elim] at he
      rcases List.mem_cons.mp he with h | h
      · subst h
        exact process_one_entry_fields tf text a s e ho
      · exact ih _ e h

/-- C8: the multi-intent coordinator's discipline.
(i) Every intent entry that reaches the aggregated result list — i.e. every
intent that was processed past the filters — has confidence ≥ 0.5 and is
neither `unknown` nor `need_clarification`.
(ii) Processing decomposes sequentially: the remaining intents are
processed from the state left by the first intent, whatever its outcome —
one intent's failure (a `success=false` execution result, a raised
exception converted to a failure entry, or being skipped) never aborts the
rest.
(iii) An intent that passes the confidence filter but whose action is
invalid in the CURRENT state (the validator refreshes the state at the
intent's own point in the sequence) is skipped, not executed. -/
theorem handle_multiple_commands_discipline (tf : TextFns) (text : String) :
    (∀ (acts : List (String × Rat)) (s : S) (e : ActionExecEntry),
      e ∈ (process_actions tf text acts s).1 →
      mkRat 1 2 ≤ e.confidence ∧ e.action ≠ "unknown" ∧ e.action ≠ "need_clarification") ∧
    (∀ (a : String × Rat) (rest : List (String × Rat)) (s : S),
      process_actions tf text (a :: rest) s =
        (((process_one tf text a s).1).elim
            (process_actions tf text rest ((process_one tf text a s).2)).1
            (fun e => e :: (process_actions tf text rest ((process_one tf text a s).2)).1),
         (process_actions tf text rest ((process_one tf text a s).2)).2)) ∧
    (∀ (a : String × Rat) (s : S),
      ¬(a.2 < mkRat 1 2 || a.1 == "unknown" || a.1 == "need_clarification") = true →
      (validate_action a.1 s).1.valid = false →
      process_one tf text a s = (none, (validate_action a.1 s).2)) ∧
    (∀ (acts : List (String × Rat)) (s : S),
      handle_multiple_commands tf text acts s =
        (TurnResult.multiple (process_actions tf text acts s).1,
         (process_actions tf text acts s).2)) := by
  refine ⟨process_actions_entries tf text,
    fun a rest s => process_actions_cons tf text a rest s,
    fun a s h1 h2 => process_one_invalid_skips tf text a s h1 h2,
    fun acts s => ?_⟩
  unfold handle_multiple_commands
  rfl

/-- C8 witness: applying the discipline theorem at a concrete run — the
single executed intent `next_slide` with confidence 0.9 in the stopped
demo world — and the invalid-skip clause at `pause` with Keynote down. -/
theorem handle_multiple_commands_discipline_witness :
    (mkRat 1 2 ≤ mkRat 9 10 ∧ ("next_slide" : String) ≠ "unknown" ∧
      ("next_slide" : String) ≠ "need_clarification") ∧
    process_one tfId "пауза" ("pause", mkRat 9 10) sNoKeynote
      = (none, (validate_action "pause" sNoKeynote).2) := by
  constructor
  · have h := (handle_multiple_commands_discipline tfId "дальше").1
      [("next_slide", mkRat 9 10)] sDemoStopped
      { action := "next_slide", confidence := mkRat 9 10, params := [],
        execution_result := some { success := true, message := "Переход к следующему слайду выполнен" } }
      (by decide)
    exact h
  · exact (handle_multiple_commands_discipline tfId "пауза").2.2.1
      ("pause", mkRat 9 10) sNoKeynote (by decide) (by decide)

end BotArti
